import Mathlib

/-!
Verification development for the pixelSound manifest-generation pipeline.

The repository contains eight Node generator scripts that walk a library's
audio directory tree, synthesize one metadata record per recognized audio
file, and serialize the records as a JSON manifest:

* `scripts/generateBoomLibraryManifest.js` (BoomLibrary)
* `scripts/generateKenneyManifest.js` (Kenney)
* `scripts/generateAmigaMusicManifest.js` (two scripts: Amiga Music, Adobe)
* `scripts/generateXDSoundKitManifest.js` (XDSoundKit)
* the Other, FilmCow and H360s generator scripts

This file gives a shallow embedding of those scripts: the filesystem is a
finite tree, JavaScript string operations are modelled on `List Char`
(ASCII case folding, which agrees with JS on every input considered here),
and each generator run is a function from an optional root listing (`none`
models a missing root directory, for which Node's `readdirSync` or
`writeFileSync` throws) to `Except String (List AudioRecord)`.
-/

/-! ## JavaScript string primitives -/

/-- JS `toLowerCase` restricted to ASCII (agrees with JS on every input
considered here), defined on the character list so that it reduces in the
kernel. -/
def jsToLower (s : String) : String := String.mk (s.toList.map Char.toLower)

/-- Drop the first `n` characters (kernel-reducible `String.drop`). -/
def strDrop (s : String) (n : Nat) : String := String.mk (s.toList.drop n)

/-- Drop the last `n` characters (kernel-reducible `String.dropRight`). -/
def strDropRight (s : String) (n : Nat) : String :=
  String.mk (s.toList.take (s.toList.length - n))

/-- Join strings with a separator (kernel-reducible
`String.intercalate`). -/
def strJoin (sep : String) : List String → String
  | [] => ""
  | [s] => s
  | s :: rest => s ++ sep ++ strJoin sep rest

/-- Substring test on character lists: `hasSubstr l pat` is true iff `pat`
occurs contiguously inside `l`.  Models JS `String.prototype.includes`. -/
def hasSubstr : List Char → List Char → Bool
  | [], pat => pat.isEmpty
  | c :: t, pat => pat.isPrefixOf (c :: t) || hasSubstr t pat

/-- JS `s.includes(pat)`. -/
def strContains (s pat : String) : Bool := hasSubstr s.toList pat.toList

/-- Node `path.extname` on a bare filename: the suffix starting at the last
dot, except that a dot in first position (hidden files) or a dotless name
yields the empty string. -/
def extnameOf (s : String) : String :=
  let l := s.toList
  let after := l.reverse.takeWhile (fun c => c ≠ '.')
  if after.length = l.length then ""
  else if l.length - after.length - 1 = 0 then ""
  else String.mk (l.drop (l.length - after.length - 1))

/-- The `ext` variable of every generator:
`path.extname(file).toLowerCase().slice(1)`. -/
def extLowerOf (s : String) : String := strDrop (jsToLower (extnameOf s)) 1

/-- The extension allow-list shared by all eight generators:
`['ogg', 'wav', 'mp3'].includes(ext)`. -/
def allowExt (f : String) : Bool := ["ogg", "wav", "mp3"].contains (extLowerOf f)

/-- The `baseName` variable: `path.basename(file, path.extname(file))`,
i.e. the filename with its extension suffix removed. -/
def stemOf (f : String) : String := strDropRight f (extnameOf f).length

/-- JS `s.replace(/[_-]/g, ' ')`: every underscore or hyphen becomes a
space. -/
def underscoresHyphensToSpaces (s : String) : String :=
  String.mk (s.toList.map fun c => if c = '_' || c = '-' then ' ' else c)

/-- JS replacement of every hyphen by a space (Kenney category names). -/
def hyphensToSpaces (s : String) : String :=
  String.mk (s.toList.map fun c => if c = '-' then ' ' else c)

/-- JS `s.replace(/_/g, ' ')` (Adobe category names). -/
def underscoresToSpaces (s : String) : String :=
  String.mk (s.toList.map fun c => if c = '_' then ' ' else c)

/-- A JS word character (`\w`): ASCII letter, digit or underscore. -/
def isWordCharJs (c : Char) : Bool := c.isAlphanum || c = '_'

/-- One pass of `s.replace(/\b\w/g, l => l.toUpperCase())`: a word
character is uppercased exactly when the preceding character (tracked by
the flag) is not a word character. -/
def upperAtBoundary : Bool → List Char → List Char
  | _, [] => []
  | prevW, c :: t =>
      (if isWordCharJs c && !prevW then c.toUpper else c)
        :: upperAtBoundary (isWordCharJs c) t

/-- JS `s.replace(/\b\w/g, l => l.toUpperCase())`. -/
def jsTitle (s : String) : String := String.mk (upperAtBoundary false s.toList)

/-- The `name` variable of every generator:
`baseName.replace(/[_-]/g, ' ').replace(/\b\w/g, l => l.toUpperCase())`. -/
def jsName (stem : String) : String := jsTitle (underscoresHyphensToSpaces stem)

/-- JS `s.replace(pat, repl)` with a string pattern: replaces only the
first occurrence of `pat`. -/
def replaceFirstL (pat repl : List Char) : List Char → List Char
  | [] => if pat.isEmpty then repl else []
  | c :: t =>
      if pat.isPrefixOf (c :: t) then repl ++ (c :: t).drop pat.length
      else c :: replaceFirstL pat repl t

/-- JS `s.replace(pat, repl)` for string `pat` (first occurrence only). -/
def replaceFirst (s pat repl : String) : String :=
  String.mk (replaceFirstL pat.toList repl.toList s.toList)

/-- POSIX `path.join` over precomputed segments. -/
def joinPath (segs : List String) : String := strJoin "/" segs

/-- First-occurrence deduplication with an accumulator of already seen
strings.  `dedupFirst [] tags` models JS `[...new Set(tags)]`: `Set`
iteration order is insertion order and re-adding an element does not move
it. -/
def dedupFirst (seen : List String) : List String → List String
  | [] => []
  | t :: ts => if t ∈ seen then dedupFirst seen ts else t :: dedupFirst (t :: seen) ts

/-! ## Filesystem model -/

mutual
/-- A directory entry: a file with a byte size, or a directory with its
`stat` size and its listing.  Listing order models the order
`fs.readdirSync` returns. -/
inductive Entry where
  | file (name : String) (size : Nat)
  | dir (name : String) (size : Nat) (children : EntryList)
deriving DecidableEq

/-- A directory listing. -/
inductive EntryList where
  | nil
  | cons (e : Entry) (es : EntryList)
deriving DecidableEq
end

/-- Name of a directory entry. -/
def entryName : Entry → String
  | .file n _ => n
  | .dir n _ _ => n

/-- The `stat` size of an entry (Node `statSync` succeeds on directories
too, returning the directory's own size). -/
def entrySize : Entry → Nat
  | .file _ sz => sz
  | .dir _ sz _ => sz

/-- Subdirectories (name and listing), in listing order: models
`readdirSync(base, { withFileTypes: true }).filter(d => d.isDirectory())`. -/
def subdirsOf : EntryList → List (String × EntryList)
  | .nil => []
  | .cons (.file _ _) es => subdirsOf es
  | .cons (.dir n _ ch) es => (n, ch) :: subdirsOf es

/-- Look up a child entry by name (filesystem names are unique, so the
first match is the entry).  Models `fs.existsSync(path.join(dir, n))`
combined with inspecting what the path denotes. -/
def findEntry : EntryList → String → Option Entry
  | .nil, _ => none
  | .cons e es, n => if entryName e = n then some e else findEntry es n

mutual
/-- Every entry in the tree has a non-empty name (true of any real
filesystem); used only to phrase subcategory lemmas. -/
def namesOkE : Entry → Bool
  | .file n _ => n != ""
  | .dir n _ ch => (n != "") && namesOkL ch

def namesOkL : EntryList → Bool
  | .nil => true
  | .cons e es => namesOkE e && namesOkL es
end

/-- `FileIn es p n sz`: the forest `es` contains, along the directory path
`p`, a file named `n` of size `sz`. -/
inductive FileIn : EntryList → List String → String → Nat → Prop where
  | headFile (n : String) (sz : Nat) (es : EntryList) :
      FileIn (.cons (.file n sz) es) [] n sz
  | headDir (d : String) (dsz : Nat) (ch : EntryList) (es : EntryList)
      (p : List String) (n : String) (sz : Nat) :
      FileIn ch p n sz → FileIn (.cons (.dir d dsz ch) es) (d :: p) n sz
  | tail (e : Entry) (es : EntryList) (p : List String) (n : String) (sz : Nat) :
      FileIn es p n sz → FileIn (.cons e es) p n sz

/-! ## Directory walkers -/

/-- One tuple handed from a walker to the metadata synthesizer. -/
structure FileHit where
  relPath : List String
  fname : String
  size : Nat
  category : String
  subcat : String
deriving DecidableEq

/-- Subcategory update of the BoomLibrary, Other, XDSoundKit, Amiga and
Adobe walkers: `processAudioDirectory(join(dirPath, item.name),
categoryName, item.name)` — the child directory's own name. -/
def subcatChild (_s n : String) : String := n

/-- Subcategory update of the H360s walker:
`const subcat = subcategory || item.name` — sticky once non-empty. -/
def subcatSticky (s n : String) : String := if s = "" then n else s

/-- Subcategory update of the FilmCow walker, which has no subcategory
parameter at all: recursion keeps the (empty) subcategory. -/
def subcatKeep (s _n : String) : String := s

mutual
/-- Recursive `processAudioDirectory` body for one entry, parameterized by
the subcategory update `upd` applied when recursing into a directory.
A file is emitted iff its extension passes the allow-list, carrying the
relative path `rel ++ [name]`, the category and the current subcategory. -/
def walkEntry (upd : String → String → String) (cat subcat : String)
    (rel : List String) : Entry → List FileHit
  | .file n sz =>
      if allowExt n then [⟨rel ++ [n], n, sz, cat, subcat⟩] else []
  | .dir n _ ch => walkList upd cat (upd subcat n) (rel ++ [n]) ch

/-- `items.forEach` over a listing, concatenating emissions in listing
order. -/
def walkList (upd : String → String → String) (cat subcat : String)
    (rel : List String) : EntryList → List FileHit
  | .nil => []
  | .cons e es =>
      walkEntry upd cat subcat rel e ++ walkList upd cat subcat rel es
end

/-- The Kenney walker (`generateKenneyManifest.js` lines 14-17): a plain
`fs.readdirSync(audioPath)` without `withFileTypes`, so every entry —
directory or file — is treated as a filename; there is no recursion.  A
directory whose name passes the extension filter would be emitted with its
`stat` size. -/
def walkFlat (cat subcat : String) (rel : List String) : EntryList → List FileHit
  | .nil => []
  | .cons e es =>
      (if allowExt (entryName e)
        then [⟨rel ++ [entryName e], entryName e, entrySize e, cat, subcat⟩]
        else [])
        ++ walkFlat cat subcat rel es

/-! ## Mutual induction helper -/

/-- Mutual structural induction over `Entry`/`EntryList`. -/
theorem entryMutualInd (P : Entry → Prop) (Q : EntryList → Prop)
    (hf : ∀ n sz, P (.file n sz))
    (hd : ∀ n sz ch, Q ch → P (.dir n sz ch))
    (hn : Q .nil)
    (hc : ∀ e es, P e → Q es → Q (.cons e es)) :
    (∀ e, P e) ∧ (∀ es, Q es) :=
  ⟨fun e => @Entry.rec P Q hf hd hn hc e,
   fun es => @EntryList.rec P Q hf hd hn hc es⟩

/-! ## Tag rules -/

/-- One conditional tag rule: if any pattern in `pats` occurs as a
substring of the subject, the strings in `adds` are appended. -/
structure TagRule where
  pats : List String
  adds : List String

/-- Whether a rule fires on a subject string (a disjunction of
`includes` tests in the source). -/
def ruleFires (subject : String) (r : TagRule) : Bool :=
  r.pats.any (fun p => strContains subject p)

/-- Apply an ordered rule table, concatenating the tags of every rule
that fires, in table order. -/
def applyRules (subject : String) (rules : List TagRule) : List String :=
  rules.flatMap (fun r => if ruleFires subject r then r.adds else [])

/-- Category rules of generateBoomLibraryManifest.js (lines 50-55), matched against the lowercased category name. -/
def boomCatRules : List TagRule := [
  TagRule.mk ["cinematic hits"] ["hit", "impact", "cinematic"],
  TagRule.mk ["cinematic metal"] ["metal", "impact", "cinematic"],
  TagRule.mk ["cinematic trailers"] ["trailer", "cinematic", "epic"],
  TagRule.mk ["construction kit"] ["construction kit", "source", "raw"],
  TagRule.mk ["designed"] ["designed", "processed", "ready"],
  TagRule.mk ["impacts"] ["impact", "hit", "collision"]
]

/-- Filename rules of generateBoomLibraryManifest.js (lines 58-138), matched against the lowercased filename stem. -/
def boomNameRules : List TagRule := [
  TagRule.mk ["boom"] ["boom", "low", "impact"],
  TagRule.mk ["hit"] ["hit", "impact", "strike"],
  TagRule.mk ["drum"] ["drum", "percussion", "rhythm"],
  TagRule.mk ["element"] ["element", "source"],
  TagRule.mk ["fire"] ["fire", "flame", "heat"],
  TagRule.mk ["metal"] ["metal", "steel", "iron"],
  TagRule.mk ["crash"] ["crash", "collision", "impact"],
  TagRule.mk ["chain"] ["chain", "metal", "rattle"],
  TagRule.mk ["smash"] ["smash", "destruction", "impact"],
  TagRule.mk ["damper"] ["damper", "metal", "resonance"],
  TagRule.mk ["gas"] ["gas", "industrial", "pressure"],
  TagRule.mk ["bottle"] ["bottle", "container", "metal"],
  TagRule.mk ["wood"] ["wood", "timber", "organic"],
  TagRule.mk ["table"] ["table", "furniture", "wood"],
  TagRule.mk ["distorted"] ["distorted", "processed", "gritty"],
  TagRule.mk ["massive"] ["massive", "large", "heavy"],
  TagRule.mk ["scifi", "sci-fi"] ["scifi", "futuristic", "technology"],
  TagRule.mk ["slam"] ["slam", "impact", "forceful"],
  TagRule.mk ["bell"] ["bell", "chime", "metal"],
  TagRule.mk ["car"] ["car", "vehicle", "automotive"],
  TagRule.mk ["hood"] ["hood", "car", "metal"],
  TagRule.mk ["container"] ["container", "metal", "industrial"],
  TagRule.mk ["door"] ["door", "metal", "opening"],
  TagRule.mk ["pole"] ["pole", "metal", "rod"],
  TagRule.mk ["iron"] ["iron", "metal", "heavy"],
  TagRule.mk ["hammer"] ["hammer", "tool", "impact"],
  TagRule.mk ["bicycle"] ["bicycle", "vehicle", "transport"],
  TagRule.mk ["piano"] ["piano", "instrument", "keys"],
  TagRule.mk ["sustained"] ["sustained", "ringing", "resonance"],
  TagRule.mk ["plate"] ["plate", "metal", "sheet"],
  TagRule.mk ["sheet"] ["sheet", "metal", "thin"],
  TagRule.mk ["slidedoor"] ["slide door", "mechanism", "metal"],
  TagRule.mk ["trash"] ["trash", "garbage", "metal"],
  TagRule.mk ["rattle"] ["rattle", "shake", "metal"],
  TagRule.mk ["hollow"] ["hollow", "empty", "resonant"],
  TagRule.mk ["crate"] ["crate", "box", "container"],
  TagRule.mk ["cavern"] ["cavern", "cave", "reverb"],
  TagRule.mk ["flame"] ["flame", "fire", "breath"],
  TagRule.mk ["meteorite"] ["meteorite", "space", "impact"],
  TagRule.mk ["wobbler"] ["wobbler", "unstable", "vibration"],
  TagRule.mk ["anvil"] ["anvil", "metal", "forge"],
  TagRule.mk ["angry"] ["angry", "aggressive", "intense"],
  TagRule.mk ["aquaphone"] ["aquaphone", "water", "instrument"],
  TagRule.mk ["harsh"] ["harsh", "gritty", "aggressive"],
  TagRule.mk ["glass"] ["glass", "fragile", "break"],
  TagRule.mk ["debris"] ["debris", "fragments", "scattered"],
  TagRule.mk ["orchestra"] ["orchestra", "symphonic", "cinematic"],
  TagRule.mk ["grancassa"] ["grancassa", "drum", "orchestral"],
  TagRule.mk ["synth"] ["synth", "electronic", "synthesizer"],
  TagRule.mk ["voice"] ["voice", "vocal", "human"],
  TagRule.mk ["choir"] ["choir", "vocal", "group"],
  TagRule.mk ["whisper"] ["whisper", "voice", "soft"],
  TagRule.mk ["rise"] ["rise", "building", "tension"],
  TagRule.mk ["tutti"] ["tutti", "orchestra", "full"],
  TagRule.mk ["chaos"] ["chaos", "disorder", "intense"],
  TagRule.mk ["stinger"] ["stinger", "hit", "short"],
  TagRule.mk ["fast"] ["fast", "quick", "rapid"],
  TagRule.mk ["whoosh"] ["whoosh", "sweep", "movement"],
  TagRule.mk ["torch"] ["torch", "fire", "flame"],
  TagRule.mk ["flange"] ["flange", "effect", "processed"],
  TagRule.mk ["speaker"] ["speaker", "audio", "electronic"],
  TagRule.mk ["creature"] ["creature", "monster", "beast"],
  TagRule.mk ["big"] ["big", "large", "massive"],
  TagRule.mk ["war"] ["war", "battle", "combat"],
  TagRule.mk ["stomp"] ["stomp", "foot", "impact"],
  TagRule.mk ["silverwind"] ["silverwind", "ethereal", "sweep"],
  TagRule.mk ["brass"] ["brass", "instrument", "metal"],
  TagRule.mk ["demon"] ["demon", "dark", "evil"],
  TagRule.mk ["firesworn"] ["firesworn", "fire", "magical"],
  TagRule.mk ["arnigator"] ["arnigator", "creature", "aggressive"],
  TagRule.mk ["soft"] ["soft", "gentle", "subtle"],
  TagRule.mk ["slightly"] ["slightly", "subtle", "light"],
  TagRule.mk ["impact"] ["impact", "hit", "collision"],
  TagRule.mk ["low"] ["low", "bass", "deep"],
  TagRule.mk ["mid"] ["mid", "medium", "middle"],
  TagRule.mk ["high"] ["high", "treble", "bright"],
  TagRule.mk ["loose"] ["loose", "relaxed", "free"],
  TagRule.mk ["long"] ["long", "extended", "sustained"],
  TagRule.mk ["large"] ["large", "big", "massive"],
  TagRule.mk ["medium"] ["medium", "mid", "average"],
  TagRule.mk ["small"] ["small", "little", "tiny"]
]


/-- Category rules of generateKenneyManifest.js (lines 33-39). -/
def kenneyCatRules : List TagRule := [
  TagRule.mk ["impact"] ["impact", "hit"],
  TagRule.mk ["interface"] ["ui", "interface"],
  TagRule.mk ["rpg"] ["rpg", "fantasy"],
  TagRule.mk ["sci-fi"] ["scifi", "futuristic"],
  TagRule.mk ["digital"] ["digital", "retro"],
  TagRule.mk ["ui"] ["ui", "interface"],
  TagRule.mk ["voiceover"] ["voiceover", "voice"]
]

/-- Filename rules of generateKenneyManifest.js (lines 46-135). -/
def kenneyNameRules : List TagRule := [
  TagRule.mk ["footstep"] ["footstep", "walk"],
  TagRule.mk ["door"] ["door", "transition"],
  TagRule.mk ["laser"] ["laser", "weapon"],
  TagRule.mk ["engine"] ["engine", "machine"],
  TagRule.mk ["explosion"] ["explosion"],
  TagRule.mk ["click"] ["click"],
  TagRule.mk ["switch"] ["switch"],
  TagRule.mk ["metal"] ["metal"],
  TagRule.mk ["glass"] ["glass"],
  TagRule.mk ["wood"] ["wood"],
  TagRule.mk ["book"] ["book"],
  TagRule.mk ["cloth"] ["cloth", "fabric"],
  TagRule.mk ["knife"] ["knife", "weapon"],
  TagRule.mk ["coin"] ["coin", "money"],
  TagRule.mk ["carpet"] ["carpet"],
  TagRule.mk ["concrete"] ["concrete"],
  TagRule.mk ["grass"] ["grass", "nature"],
  TagRule.mk ["snow"] ["snow", "winter"],
  TagRule.mk ["punch"] ["punch", "combat"],
  TagRule.mk ["bell"] ["bell"],
  TagRule.mk ["plate"] ["plate"],
  TagRule.mk ["plank"] ["plank", "wood"],
  TagRule.mk ["tin"] ["tin", "metal"],
  TagRule.mk ["mining"] ["mining", "dig"],
  TagRule.mk ["soft"] ["soft"],
  TagRule.mk ["heavy"] ["heavy"],
  TagRule.mk ["light"] ["light"],
  TagRule.mk ["medium"] ["medium"],
  TagRule.mk ["computer"] ["computer", "digital"],
  TagRule.mk ["forcefield"] ["forcefield"],
  TagRule.mk ["slime"] ["slime", "liquid"],
  TagRule.mk ["thruster"] ["thruster", "fire"],
  TagRule.mk ["space"] ["space"],
  TagRule.mk ["retro"] ["retro"],
  TagRule.mk ["large"] ["large"],
  TagRule.mk ["small"] ["small"],
  TagRule.mk ["circular"] ["circular"],
  TagRule.mk ["low"] ["low"],
  TagRule.mk ["back"] ["navigation"],
  TagRule.mk ["close"] ["transition"],
  TagRule.mk ["open"] ["transition"],
  TagRule.mk ["confirmation"] ["confirmation", "success"],
  TagRule.mk ["error"] ["error", "notification"],
  TagRule.mk ["drop"] ["drop"],
  TagRule.mk ["glitch"] ["glitch", "digital"],
  TagRule.mk ["maximize"] ["window"],
  TagRule.mk ["minimize"] ["window"],
  TagRule.mk ["question"] ["question", "notification"],
  TagRule.mk ["scratch"] ["scratch"],
  TagRule.mk ["scroll"] ["scroll"],
  TagRule.mk ["select"] ["select"],
  TagRule.mk ["toggle"] ["toggle"],
  TagRule.mk ["tick"] ["tick", "clock"],
  TagRule.mk ["bong"] ["notification"],
  TagRule.mk ["pluck"] ["pluck"],
  TagRule.mk ["belt"] ["belt", "leather"],
  TagRule.mk ["handle"] ["handle"],
  TagRule.mk ["chop"] ["chop", "action"],
  TagRule.mk ["creak"] ["creak"],
  TagRule.mk ["draw"] ["draw"],
  TagRule.mk ["slice"] ["slice"],
  TagRule.mk ["latch"] ["latch"],
  TagRule.mk ["pot"] ["pot"],
  TagRule.mk ["powerup"] ["powerup", "game"],
  TagRule.mk ["zap"] ["zap"],
  TagRule.mk ["trash"] ["trash"],
  TagRule.mk ["war_"] ["war", "combat"],
  TagRule.mk ["game_over"] ["gameover"],
  TagRule.mk ["you_win"] ["win", "success"],
  TagRule.mk ["you_lose"] ["lose", "fail"],
  TagRule.mk ["mission"] ["mission"],
  TagRule.mk ["level"] ["level"],
  TagRule.mk ["round"] ["round"],
  TagRule.mk ["ready"] ["ready"],
  TagRule.mk ["set"] ["set"],
  TagRule.mk ["go"] ["go"],
  TagRule.mk ["correct"] ["correct", "success"],
  TagRule.mk ["wrong"] ["wrong", "fail"],
  TagRule.mk ["congratulations"] ["congratulations", "success"],
  TagRule.mk ["hurry"] ["hurry", "time"],
  TagRule.mk ["tie"] ["tie"],
  TagRule.mk ["highscore"] ["highscore", "score"],
  TagRule.mk ["objective"] ["objective"],
  TagRule.mk ["medic"] ["medic"],
  TagRule.mk ["sniper"] ["sniper", "weapon"],
  TagRule.mk ["reloading"] ["reloading"],
  TagRule.mk ["backup"] ["backup"],
  TagRule.mk ["cover"] ["cover"],
  TagRule.mk ["fire"] ["fire"],
  TagRule.mk ["target"] ["target"]
]



/-- Filename rules of the Other generator script (src/unnamed/part_000, lines 50-106). -/
def otherNameRules : List TagRule := [
  TagRule.mk ["bomb jack"] ["bomb jack", "arcade", "platformer", "mark cooksey"],
  TagRule.mk ["frankie goes to hollywood"] ["frankie goes to hollywood", "fred gray", "c64", "commodore"],
  TagRule.mk ["hyper sports"] ["hyper sports", "martin galway", "sports", "olympic"],
  TagRule.mk ["lazy jones"] ["lazy jones", "david whittaker", "c64", "commodore"],
  TagRule.mk ["super mario"] ["super mario", "koji kondo", "nintendo", "nes"],
  TagRule.mk ["yie ar kung fu"] ["yie ar kung fu", "martin galway", "fighting", "arcade"],
  TagRule.mk ["mark cooksey"] ["mark cooksey", "composer"],
  TagRule.mk ["fred gray"] ["fred gray", "composer"],
  TagRule.mk ["martin galway"] ["martin galway", "composer"],
  TagRule.mk ["david whittaker"] ["david whittaker", "composer"],
  TagRule.mk ["koji kondo"] ["koji kondo", "composer"],
  TagRule.mk ["theme", "title"] ["theme", "title", "menu"],
  TagRule.mk ["in-game", "ingame"] ["in-game", "gameplay", "background"],
  TagRule.mk ["loop"] ["loop", "repeating"],
  TagRule.mk ["sting", "stinger"] ["sting", "stinger", "short", "jingle"],
  TagRule.mk ["string"] ["string", "synth", "melody"],
  TagRule.mk ["complete", "complete sting"] ["complete", "success", "victory"],
  TagRule.mk ["game over"] ["game over", "fail", "end"],
  TagRule.mk ["level complete", "level"] ["level", "stage", "complete"],
  TagRule.mk ["song"] ["song", "track", "music"],
  TagRule.mk ["castle"] ["castle", "dungeon", "boss"],
  TagRule.mk ["overworld"] ["overworld", "main", "outdoor"],
  TagRule.mk ["underwater"] ["underwater", "swimming", "water"],
  TagRule.mk ["underworld"] ["underworld", "underground", "cave"],
  TagRule.mk ["princess", "peach"] ["princess", "peach", "ending", "victory"],
  TagRule.mk ["superstar"] ["superstar", "powerup", "star"],
  TagRule.mk ["time"] ["time", "warning", "urgent"],
  TagRule.mk ["lose a life"] ["lose a life", "death", "fail"],
  TagRule.mk ["full mix"] ["full mix", "complete", "arrangement"],
  TagRule.mk ["pulse channel"] ["pulse channel", "chiptune", "nes", "channel"],
  TagRule.mk ["triangle channel", "triangle wave"] ["triangle", "bass", "nes", "channel"],
  TagRule.mk ["noise channel"] ["noise", "percussion", "drums", "nes"],
  TagRule.mk ["kung fu"] ["kung fu", "fighting", "martial arts"],
  TagRule.mk ["level start"] ["level start", "begin", "intro"],
  TagRule.mk ["level complete"] ["level complete", "victory", "success"],
  TagRule.mk ["sports"] ["sports", "athletics", "competition"],
  TagRule.mk ["lazy"] ["lazy", "relaxed", "casual"],
  TagRule.mk ["flower power"] ["flower power", "theme", "psychedelic"],
  TagRule.mk ["sobre las olas"] ["sobre las olas", "classical", "waltz"],
  TagRule.mk ["magnetic fields"] ["magnetic fields", "influence"],
  TagRule.mk ["jean-michel jarre"] ["jean-michel jarre", "synth", "electronic", "influence"]
]


/-- Category rules of the FilmCow generator script (src/unnamed/part_000). -/
def filmCowCatRules : List TagRule := [
  TagRule.mk ["designed"] ["designed", "sfx"],
  TagRule.mk ["recorded"] ["recorded", "foley"]
]

/-- Filename rules of the FilmCow generator script. -/
def filmCowNameRules : List TagRule := [
  TagRule.mk ["alien"] ["alien", "scifi"],
  TagRule.mk ["robot"] ["robot", "mechanical"],
  TagRule.mk ["laser"] ["laser", "weapon"],
  TagRule.mk ["space"] ["space", "scifi"],
  TagRule.mk ["sci fi", "sci-fi"] ["scifi"],
  TagRule.mk ["bug"] ["bug", "insect"],
  TagRule.mk ["goo"] ["goo", "liquid", "slime"],
  TagRule.mk ["ai"] ["ai", "computer", "digital"],
  TagRule.mk ["computer"] ["computer", "digital"],
  TagRule.mk ["machine"] ["machine", "mechanical"],
  TagRule.mk ["footstep"] ["footstep", "walk"],
  TagRule.mk ["door"] ["door", "transition"],
  TagRule.mk ["glass"] ["glass"],
  TagRule.mk ["metal"] ["metal"],
  TagRule.mk ["wood"] ["wood"],
  TagRule.mk ["water"] ["water", "liquid"],
  TagRule.mk ["splash"] ["splash", "water"],
  TagRule.mk ["paper"] ["paper"],
  TagRule.mk ["gun"] ["gun", "weapon"],
  TagRule.mk ["punch"] ["punch", "combat"],
  TagRule.mk ["hit"] ["hit", "impact"],
  TagRule.mk ["drop"] ["drop"],
  TagRule.mk ["bell"] ["bell"],
  TagRule.mk ["click"] ["click", "ui"],
  TagRule.mk ["horn"] ["horn"],
  TagRule.mk ["lightning"] ["lightning", "electric"],
  TagRule.mk ["thump"] ["thump", "impact"],
  TagRule.mk ["communication"] ["communication", "transmission"],
  TagRule.mk ["atmospheric"] ["atmospheric", "ambience"],
  TagRule.mk ["stinger"] ["stinger", "transition"],
  TagRule.mk ["ocean"] ["ocean", "water", "ambience"],
  TagRule.mk ["wave"] ["wave", "water"],
  TagRule.mk ["toilet"] ["toilet", "bathroom"],
  TagRule.mk ["chair"] ["chair", "furniture"],
  TagRule.mk ["book"] ["book"],
  TagRule.mk ["bottle"] ["bottle"],
  TagRule.mk ["knife"] ["knife", "weapon"],
  TagRule.mk ["umbrella"] ["umbrella"],
  TagRule.mk ["velcro"] ["velcro"],
  TagRule.mk ["teapot"] ["teapot", "kitchen"],
  TagRule.mk ["silverware"] ["silverware", "kitchen"],
  TagRule.mk ["rock"] ["rock", "stone"],
  TagRule.mk ["leaf", "leaves"] ["leaf", "nature"],
  TagRule.mk ["grass"] ["grass", "nature"],
  TagRule.mk ["bush"] ["bush", "nature"],
  TagRule.mk ["swamp"] ["swamp", "nature", "ambience"],
  TagRule.mk ["body"] ["body", "human"],
  TagRule.mk ["grunt"] ["grunt", "voice", "human"],
  TagRule.mk ["oof"] ["oof", "voice", "human"],
  TagRule.mk ["land"] ["land", "movement"],
  TagRule.mk ["fall"] ["fall", "movement"],
  TagRule.mk ["slap"] ["slap", "impact"],
  TagRule.mk ["sipping", "sip"] ["sip", "drink"],
  TagRule.mk ["button"] ["button", "ui"],
  TagRule.mk ["knob"] ["knob", "ui"],
  TagRule.mk ["drawer"] ["drawer", "furniture"],
  TagRule.mk ["crate"] ["crate", "container"],
  TagRule.mk ["cleaver"] ["cleaver", "kitchen", "weapon"],
  TagRule.mk ["fish"] ["fish", "animal"],
  TagRule.mk ["flag"] ["flag", "fabric"],
  TagRule.mk ["foam"] ["foam"],
  TagRule.mk ["fudge"] ["fudge", "food"],
  TagRule.mk ["gas"] ["gas", "liquid"],
  TagRule.mk ["harpoon"] ["harpoon", "weapon"],
  TagRule.mk ["beverage"] ["beverage", "drink"],
  TagRule.mk ["phone"] ["phone", "electronic"],
  TagRule.mk ["mouse"] ["mouse", "electronic"],
  TagRule.mk ["orange"] ["orange", "food"],
  TagRule.mk ["party"] ["party", "celebration"],
  TagRule.mk ["ping pong"] ["pingpong", "sport"],
  TagRule.mk ["plastic"] ["plastic"],
  TagRule.mk ["plate"] ["plate", "kitchen"],
  TagRule.mk ["rumbling"] ["rumbling", "ambience"],
  TagRule.mk ["sheet"] ["sheet", "fabric"],
  TagRule.mk ["spatula"] ["spatula", "kitchen"],
  TagRule.mk ["spray"] ["spray", "liquid"],
  TagRule.mk ["tube"] ["tube"],
  TagRule.mk ["future"] ["future", "scifi"],
  TagRule.mk ["presence"] ["presence", "ambience"],
  TagRule.mk ["talking"] ["talking", "voice"],
  TagRule.mk ["sick"] ["sick", "voice"],
  TagRule.mk ["freaking"] ["malfunction"]
]

/-- Filename rules of the H360s generator script (src/unnamed/part_001, lines 48-137). -/
def h360NameRules : List TagRule := [
  TagRule.mk ["step", "foot"] ["footsteps", "walk"],
  TagRule.mk ["run"] ["run", "movement"],
  TagRule.mk ["jump"] ["jump", "movement"],
  TagRule.mk ["land"] ["land", "impact"],
  TagRule.mk ["concrete"] ["concrete", "surface"],
  TagRule.mk ["metal"] ["metal", "surface"],
  TagRule.mk ["wood"] ["wood", "surface"],
  TagRule.mk ["grass"] ["grass", "nature"],
  TagRule.mk ["dirt"] ["dirt", "ground"],
  TagRule.mk ["gravel"] ["gravel", "surface"],
  TagRule.mk ["water"] ["water", "liquid"],
  TagRule.mk ["mud"] ["mud", "ground"],
  TagRule.mk ["tile"] ["tile", "surface"],
  TagRule.mk ["glass"] ["glass", "surface"],
  TagRule.mk ["steel"] ["steel", "metal"],
  TagRule.mk ["panel"] ["panel", "surface"],
  TagRule.mk ["grate"] ["grate", "metal"],
  TagRule.mk ["drop"] ["drop", "liquid"],
  TagRule.mk ["drip"] ["drip", "liquid"],
  TagRule.mk ["splash"] ["splash", "water"],
  TagRule.mk ["cloth"] ["cloth", "fabric"],
  TagRule.mk ["woosh"] ["woosh", "fabric", "movement"],
  TagRule.mk ["smoke"] ["smoke", "effect"],
  TagRule.mk ["card"] ["card", "paper"],
  TagRule.mk ["flip"] ["flip", "paper"],
  TagRule.mk ["page"] ["page", "paper"],
  TagRule.mk ["weapon"] ["weapon", "combat"],
  TagRule.mk ["grab"] ["grab", "weapon"],
  TagRule.mk ["punch"] ["punch", "combat", "impact"],
  TagRule.mk ["hit"] ["hit", "impact", "combat"],
  TagRule.mk ["swing"] ["swing", "weapon"],
  TagRule.mk ["block"] ["block", "combat"],
  TagRule.mk ["ambience", "ambient"] ["ambience", "background"],
  TagRule.mk ["nature"] ["nature", "outdoor"],
  TagRule.mk ["city"] ["city", "urban"],
  TagRule.mk ["room"] ["room", "indoor"],
  TagRule.mk ["forest"] ["forest", "nature"],
  TagRule.mk ["wind"] ["wind", "weather"],
  TagRule.mk ["rain"] ["rain", "weather", "water"],
  TagRule.mk ["thunder"] ["thunder", "weather"],
  TagRule.mk ["fire"] ["fire", "effect"],
  TagRule.mk ["voice", "vocal"] ["voice", "human"],
  TagRule.mk ["speak"] ["speak", "voice"],
  TagRule.mk ["breath"] ["breath", "human"],
  TagRule.mk ["grunt"] ["grunt", "voice", "effort"],
  TagRule.mk ["gasp"] ["gasp", "voice"],
  TagRule.mk ["scream"] ["scream", "voice"],
  TagRule.mk ["laugh"] ["laugh", "voice"],
  TagRule.mk ["explosion"] ["explosion", "combat", "impact"],
  TagRule.mk ["gun", "shot"] ["gun", "weapon", "combat"],
  TagRule.mk ["magic"] ["magic", "effect"],
  TagRule.mk ["spell"] ["spell", "magic"],
  TagRule.mk ["power"] ["power", "effect"],
  TagRule.mk ["charge"] ["charge", "effect"],
  TagRule.mk ["laser"] ["laser", "scifi", "weapon"],
  TagRule.mk ["electric"] ["electric", "effect"],
  TagRule.mk ["door"] ["door", "transition"],
  TagRule.mk ["gate"] ["gate", "transition"],
  TagRule.mk ["button"] ["button", "ui"],
  TagRule.mk ["click"] ["click", "ui"],
  TagRule.mk ["switch"] ["switch", "mechanical"],
  TagRule.mk ["lever"] ["lever", "mechanical"],
  TagRule.mk ["engine"] ["engine", "machine"],
  TagRule.mk ["motor"] ["motor", "machine"],
  TagRule.mk ["fan"] ["fan", "machine"],
  TagRule.mk ["machine"] ["machine", "mechanical"],
  TagRule.mk ["alarm"] ["alarm", "warning"],
  TagRule.mk ["siren"] ["siren", "warning"],
  TagRule.mk ["bell"] ["bell", "signal"],
  TagRule.mk ["absolver"] ["absolver", "game"],
  TagRule.mk ["brawlhalla"] ["brawlhalla", "game"],
  TagRule.mk ["injustice"] ["injustice", "game"],
  TagRule.mk ["fatal"] ["fatalfake", "game"],
  TagRule.mk ["ui", "menu"] ["ui", "interface"],
  TagRule.mk ["notification"] ["notification", "ui"],
  TagRule.mk ["select"] ["select", "ui"],
  TagRule.mk ["confirm"] ["confirm", "ui"],
  TagRule.mk ["cancel"] ["cancel", "ui"]
]


/-- Category rules of generateXDSoundKitManifest.js (lines 50-53). -/
def xdCatRules : List TagRule := [
  TagRule.mk ["dings", "dongs"] ["ding", "dong", "bell", "chime", "notification"],
  TagRule.mk ["swishes", "swooshes"] ["swish", "swoosh", "whoosh", "sweep", "movement"],
  TagRule.mk ["tics", "tacs"] ["tic", "tac", "tick", "clock", "rhythm"],
  TagRule.mk ["wums", "wuhs"] ["wum", "wuh", "warm", "bass", "soft"]
]

/-- Filename rules of generateXDSoundKitManifest.js (lines 56-84). -/
def xdNameRules : List TagRule := [
  TagRule.mk ["ding"] ["ding", "bell", "notification"],
  TagRule.mk ["double"] ["double", "two", "multiple"],
  TagRule.mk ["triple"] ["triple", "three", "multiple"],
  TagRule.mk ["two step"] ["two step", "staggered", "double"],
  TagRule.mk ["low power"] ["low power", "warning", "battery", "alert"],
  TagRule.mk ["pleasant"] ["pleasant", "friendly", "positive", "happy"],
  TagRule.mk ["falling"] ["falling", "descending", "down"],
  TagRule.mk ["rising"] ["rising", "ascending", "up"],
  TagRule.mk ["steps"] ["steps", "staggered", "sequence"],
  TagRule.mk ["stutter"] ["stutter", "repeating", "staccato"],
  TagRule.mk ["uhoh", "uh oh"] ["uh oh", "warning", "alert", "mistake"],
  TagRule.mk ["up down up"] ["up down up", "bounce", "playful"],
  TagRule.mk ["swipe"] ["swipe", "gesture", "touch", "mobile"],
  TagRule.mk ["back"] ["back", "navigation", "return"],
  TagRule.mk ["swoosh"] ["swoosh", "sweep", "movement"],
  TagRule.mk ["happy"] ["happy", "positive", "cheerful", "friendly"],
  TagRule.mk ["wish"] ["wish", "magical", "sparkle"],
  TagRule.mk ["wisp"] ["wisp", "soft", "gentle", "light"],
  TagRule.mk ["gone with the wind"] ["gone with the wind", "long", "sweep", "wind"],
  TagRule.mk ["tictac", "tic tac"] ["tic tac", "clock", "rhythm", "tick"],
  TagRule.mk ["dial"] ["dial", "phone", "rotate", "adjust"],
  TagRule.mk ["fast"] ["fast", "quick", "rapid"],
  TagRule.mk ["medium"] ["medium", "moderate", "mid"],
  TagRule.mk ["slow"] ["slow", "leisurely", "relaxed"],
  TagRule.mk ["drop"] ["drop", "fall", "release"],
  TagRule.mk ["select"] ["select", "choose", "pick", "ui"],
  TagRule.mk ["warm"] ["warm", "soft", "pleasant", "comfortable"],
  TagRule.mk ["power"] ["power", "energy", "strength"],
  TagRule.mk ["wobble"] ["wobble", "unstable", "shake", "vibration"]
]


/-- Filename rules of generateAmigaMusicManifest.js (lines 49-162). -/
def amigaNameRules : List TagRule := [
  TagRule.mk ["game music", "game"] ["game", "soundtrack"],
  TagRule.mk ["mod"] ["mod", "module", "tracker"],
  TagRule.mk ["title", "theme"] ["title", "theme", "menu"],
  TagRule.mk ["intro"] ["intro", "opening"],
  TagRule.mk ["main"] ["main", "theme"],
  TagRule.mk ["boss"] ["boss", "battle", "combat"],
  TagRule.mk ["level", "stage"] ["level", "stage", "gameplay"],
  TagRule.mk ["game over"] ["game over", "fail", "gameplay"],
  TagRule.mk ["complete", "clear"] ["complete", "success", "victory"],
  TagRule.mk ["ending"] ["ending", "finale", "victory"],
  TagRule.mk ["intermission"] ["intermission", "break"],
  TagRule.mk ["loading"] ["loading", "wait"],
  TagRule.mk ["get ready"] ["get ready", "start"],
  TagRule.mk ["try again"] ["try again", "retry", "fail"],
  TagRule.mk ["mission"] ["mission", "objective"],
  TagRule.mk ["phase"] ["phase", "level"],
  TagRule.mk ["batman"] ["batman", "superhero", "action"],
  TagRule.mk ["battletoads"] ["battletoads", "action", "platformer"],
  TagRule.mk ["blood money"] ["blood money", "shooter"],
  TagRule.mk ["cannon fodder"] ["cannon fodder", "strategy", "war"],
  TagRule.mk ["flashback"] ["flashback", "platformer", "scifi"],
  TagRule.mk ["full contact"] ["full contact", "fighting"],
  TagRule.mk ["lotus"] ["lotus", "racing", "driving"],
  TagRule.mk ["pinball"] ["pinball", "arcade"],
  TagRule.mk ["r-type"] ["r-type", "shooter", "scifi"],
  TagRule.mk ["shadow of the beast"] ["shadow of the beast", "platformer", "dark"],
  TagRule.mk ["speedball"] ["speedball", "sports", "futuristic"],
  TagRule.mk ["dr awesome", "bjørn lynne"] ["dr awesome", "bjørn lynne"],
  TagRule.mk ["jester"] ["jester", "demo scene"],
  TagRule.mk ["pirat"] ["pirat", "demo scene"],
  TagRule.mk ["tdk", "mark knight"] ["tdk", "mark knight", "demo scene"],
  TagRule.mk ["course", "track"] ["track", "level"],
  TagRule.mk ["desert"] ["desert", "environment"],
  TagRule.mk ["forest"] ["forest", "nature"],
  TagRule.mk ["night"] ["night", "dark"],
  TagRule.mk ["snow"] ["snow", "winter"],
  TagRule.mk ["storm"] ["storm", "weather"],
  TagRule.mk ["fog"] ["fog", "atmosphere"],
  TagRule.mk ["motorway"] ["motorway", "road", "driving"],
  TagRule.mk ["cathedral"] ["cathedral", "gothic", "building"],
  TagRule.mk ["cave", "cavern"] ["cave", "underground"],
  TagRule.mk ["factory"] ["factory", "industrial"],
  TagRule.mk ["street"] ["street", "city", "urban"],
  TagRule.mk ["womb", "inside"] ["organic", "interior"],
  TagRule.mk ["dream", "island"] ["dream", "fantasy"],
  TagRule.mk ["arctic", "ice"] ["arctic", "ice", "cold"],
  TagRule.mk ["volcano", "inferno"] ["fire", "hot", "danger"],
  TagRule.mk ["surf"] ["surf", "water", "beach"],
  TagRule.mk ["revolution"] ["revolution", "action"],
  TagRule.mk ["turbo"] ["turbo", "fast", "speed"],
  TagRule.mk ["karnath", "lair"] ["lair", "boss", "danger"],
  TagRule.mk ["clinger", "winger"] ["action", "platformer"],
  TagRule.mk ["rat race"] ["rat race", "chase"],
  TagRule.mk ["wookie"] ["wookie", "hole", "cave"],
  TagRule.mk ["volkmire"] ["volkmire", "fire", "danger"],
  TagRule.mk ["intruder", "excluder"] ["action", "platformer"],
  TagRule.mk ["terra tubes"] ["terra", "tubes", "underground"],
  TagRule.mk ["beat box"] ["beat box", "hip hop", "urban"],
  TagRule.mk ["ignition"] ["ignition", "space", "rocket"],
  TagRule.mk ["nightmare"] ["nightmare", "dark", "horror"],
  TagRule.mk ["steel wheels"] ["steel wheels", "train", "industrial"],
  TagRule.mk ["belt"] ["belt", "item"],
  TagRule.mk ["chute"] ["chute", "slide"],
  TagRule.mk ["conrad"] ["conrad", "protagonist", "character"],
  TagRule.mk ["memories"] ["memories", "flashback", "story"],
  TagRule.mk ["delphine"] ["delphine", "logo", "studio"],
  TagRule.mk ["disintegration"] ["disintegration", "effect", "scifi"],
  TagRule.mk ["elevator"] ["elevator", "transport", "mechanical"],
  TagRule.mk ["fanfare"] ["fanfare", "triumph", "celebration"],
  TagRule.mk ["holocube"] ["holocube", "scifi", "item"],
  TagRule.mk ["teleport"] ["teleport", "scifi", "effect"],
  TagRule.mk ["taxi"] ["taxi", "vehicle", "transport"],
  TagRule.mk ["voyage"] ["voyage", "journey", "travel"],
  TagRule.mk ["waking"] ["waking", "awakening", "start"],
  TagRule.mk ["reunion"] ["reunion", "story", "emotional"],
  TagRule.mk ["acidic", "acid"] ["acid", "electronic"],
  TagRule.mk ["chip", "chipper"] ["chip", "chiptune"],
  TagRule.mk ["cyber"] ["cyber", "electronic", "scifi"],
  TagRule.mk ["molecule"] ["molecule", "science"],
  TagRule.mk ["wicked"] ["wicked", "intense"],
  TagRule.mk ["instinct"] ["instinct", "primal"],
  TagRule.mk ["melon"] ["melon", "playful"],
  TagRule.mk ["grind"] ["grind", "industrial"],
  TagRule.mk ["frequency"] ["frequency", "electronic"],
  TagRule.mk ["space"] ["space", "cosmic", "scifi"],
  TagRule.mk ["deliria", "delirium"] ["delirium", "trippy"],
  TagRule.mk ["hightop"] ["hightop", "energetic"],
  TagRule.mk ["back in town"] ["back in town", "return"],
  TagRule.mk ["escape"] ["escape", "action", "chase"],
  TagRule.mk ["suicide"] ["suicide", "dark", "intense"],
  TagRule.mk ["normal"] ["normal", "standard"],
  TagRule.mk ["distance"] ["distance", "separation"],
  TagRule.mk ["orgasmic"] ["orgasmic", "anthrox", "remix"],
  TagRule.mk ["chubby"] ["chubby", "playful"]
]


/-- Filename rules of the Adobe generator script (second script in generateAmigaMusicManifest.js). -/
def adobeNameRules : List TagRule := [
  TagRule.mk ["alert", "alarm"] ["alert", "notification", "warning"],
  TagRule.mk ["beep"] ["beep", "digital", "ui"],
  TagRule.mk ["cartoon"] ["cartoon", "animated", "playful"],
  TagRule.mk ["transition"] ["transition", "effect"],
  TagRule.mk ["weapon"] ["weapon", "combat"],
  TagRule.mk ["explosion"] ["explosion", "impact", "combat"],
  TagRule.mk ["laser"] ["laser", "scifi", "weapon"],
  TagRule.mk ["digital"] ["digital", "electronic"],
  TagRule.mk ["multimedia"] ["multimedia", "digital", "ui"],
  TagRule.mk ["flash"] ["flash", "digital", "web"],
  TagRule.mk ["animation"] ["animation", "cartoon"],
  TagRule.mk ["toy"] ["toy", "playful"],
  TagRule.mk ["whistle"] ["whistle", "sound"],
  TagRule.mk ["horn"] ["horn", "instrument"],
  TagRule.mk ["balloon"] ["balloon", "toy"],
  TagRule.mk ["kiss"] ["kiss", "human", "cartoon"],
  TagRule.mk ["voice"] ["voice", "human"],
  TagRule.mk ["squeak"] ["squeak", "toy"],
  TagRule.mk ["drum"] ["drum", "percussion", "instrument"],
  TagRule.mk ["cymbal"] ["cymbal", "percussion", "instrument"],
  TagRule.mk ["bell"] ["bell", "notification", "chime"],
  TagRule.mk ["chime"] ["chime", "bell", "notification"],
  TagRule.mk ["blast"] ["blast", "impact", "explosion"],
  TagRule.mk ["crystal"] ["crystal", "magical", "effect"],
  TagRule.mk ["glow"] ["glow", "magical", "effect"],
  TagRule.mk ["data"] ["data", "digital", "computer"],
  TagRule.mk ["transmission"] ["transmission", "digital", "communication"],
  TagRule.mk ["computer"] ["computer", "digital", "technology"],
  TagRule.mk ["axe"] ["axe", "weapon", "melee"],
  TagRule.mk ["sword"] ["sword", "weapon", "melee"],
  TagRule.mk ["bullet"] ["bullet", "weapon", "ammo"],
  TagRule.mk ["cannon"] ["cannon", "weapon", "explosion"],
  TagRule.mk ["gun"] ["gun", "weapon", "firearm"],
  TagRule.mk ["rifle"] ["rifle", "weapon", "firearm"],
  TagRule.mk ["shotgun"] ["shotgun", "weapon", "firearm"],
  TagRule.mk ["machine gun"] ["machine gun", "weapon", "firearm"],
  TagRule.mk ["knife"] ["knife", "weapon", "melee"],
  TagRule.mk ["whip"] ["whip", "weapon"],
  TagRule.mk ["taser"] ["taser", "weapon", "electric"],
  TagRule.mk ["character"] ["character", "animator"],
  TagRule.mk ["ambience"] ["ambience", "background", "environment"],
  TagRule.mk ["footstep"] ["footstep", "foley", "walk"],
  TagRule.mk ["door"] ["door", "foley", "transition"],
  TagRule.mk ["fire"] ["fire", "effect", "nature"],
  TagRule.mk ["fireball"] ["fireball", "fire", "magic"],
  TagRule.mk ["horror"] ["horror", "scary", "dark"],
  TagRule.mk ["ghost"] ["ghost", "horror", "scary"],
  TagRule.mk ["scream"] ["scream", "horror", "human"],
  TagRule.mk ["glass"] ["glass", "foley", "break"],
  TagRule.mk ["paper"] ["paper", "foley"],
  TagRule.mk ["shower"] ["shower", "household", "water"],
  TagRule.mk ["crowd"] ["crowd", "human", "group"],
  TagRule.mk ["cheer"] ["cheer", "crowd", "celebration"],
  TagRule.mk ["water"] ["water", "liquid", "nature"],
  TagRule.mk ["splash"] ["splash", "water", "liquid"],
  TagRule.mk ["bubble"] ["bubble", "water", "liquid"],
  TagRule.mk ["scifi", "sci-fi"] ["scifi", "futuristic", "technology"],
  TagRule.mk ["alien"] ["alien", "scifi", "creature"],
  TagRule.mk ["spaceship", "space ship"] ["spaceship", "scifi", "vehicle"],
  TagRule.mk ["saber"] ["saber", "scifi", "weapon"],
  TagRule.mk ["sports"] ["sports", "game"],
  TagRule.mk ["baseball"] ["baseball", "sports", "game"],
  TagRule.mk ["basketball"] ["basketball", "sports", "game"],
  TagRule.mk ["football"] ["football", "sports", "game"],
  TagRule.mk ["arcade"] ["arcade", "game", "retro"],
  TagRule.mk ["keyboard"] ["keyboard", "computer", "typing"],
  TagRule.mk ["cell phone", "phone"] ["phone", "mobile", "communication"],
  TagRule.mk ["car"] ["car", "vehicle", "transportation"],
  TagRule.mk ["truck"] ["truck", "vehicle", "transportation"],
  TagRule.mk ["drive"] ["drive", "vehicle", "transportation"],
  TagRule.mk ["thunder"] ["thunder", "weather", "storm"],
  TagRule.mk ["lightning"] ["lightning", "weather", "storm"],
  TagRule.mk ["storm"] ["storm", "weather", "nature"],
  TagRule.mk ["wind"] ["wind", "weather", "nature"],
  TagRule.mk ["bleep"] ["bleep", "digital", "ui"],
  TagRule.mk ["cute"] ["cute", "playful", "friendly"],
  TagRule.mk ["woosh", "whoosh"] ["woosh", "movement", "effect"],
  TagRule.mk ["mouth"] ["mouth", "vocal", "human"],
  TagRule.mk ["readout"] ["readout", "digital", "computer"],
  TagRule.mk ["hooray"] ["hooray", "celebration", "human"],
  TagRule.mk ["motionsound"] ["motionsound", "sound effect"]
]



/-! ## Tag accumulation per generator

Each function reproduces its script's `tags` pushes in source order, on
the lowercased filename stem `ln`, lowercased category `lc` and lowercased
subcategory `ls`; `hasSub` is the JS truthiness test `if (subcategory)`.
-/

/-- Tag accumulation of generateBoomLibraryManifest.js (lines 42-138). -/
def boomTags (ln lc ls : String) (hasSub : Bool) : List String :=
  [lc] ++ (if hasSub then [ls] else [])
    ++ ["boom library", "professional", "cinematic"]
    ++ applyRules lc boomCatRules
    ++ applyRules ln boomNameRules

/-- Tag accumulation of generateKenneyManifest.js (lines 29-135): only
conditional rules, plus the two subcategory equality tests. -/
def kenneyTags (ln lc ls : String) : List String :=
  applyRules lc kenneyCatRules
    ++ (if ls = "male" then ["male", "voice"] else [])
    ++ (if ls = "female" then ["female", "voice"] else [])
    ++ applyRules ln kenneyNameRules

/-- Tag accumulation of the Other generator script. -/
def otherTags (ln lc ls : String) (hasSub : Bool) : List String :=
  [lc] ++ (if hasSub then [ls] else [])
    ++ ["retro", "game music", "soundtrack"]
    ++ applyRules ln otherNameRules

/-- Tag accumulation of the FilmCow generator script (conditional rules
only; no unconditional category or subcategory tag). -/
def filmCowTags (ln lc : String) : List String :=
  applyRules lc filmCowCatRules ++ applyRules ln filmCowNameRules

/-- Tag accumulation of the H360s generator script (src/unnamed/part_001,
lines 43-137). -/
def h360Tags (ln lc ls : String) (hasSub : Bool) : List String :=
  [lc] ++ (if hasSub then [ls] else []) ++ applyRules ln h360NameRules

/-- Tag accumulation of generateXDSoundKitManifest.js (lines 42-84). -/
def xdTags (ln lc ls : String) (hasSub : Bool) : List String :=
  [lc] ++ (if hasSub then [ls] else [])
    ++ ["xd soundkit", "ui", "notification", "interface"]
    ++ applyRules lc xdCatRules
    ++ applyRules ln xdNameRules

/-- Tag accumulation of generateAmigaMusicManifest.js (first script). -/
def amigaTags (ln lc ls : String) (hasSub : Bool) : List String :=
  [lc] ++ (if hasSub then [ls] else [])
    ++ ["amiga", "retro", "chiptune", "synth"]
    ++ applyRules ln amigaNameRules

/-- Tag accumulation of the Adobe generator script (second script in
generateAmigaMusicManifest.js): category and subcategory tags plus
filename rules, no fixed library tags. -/
def adobeTags (ln lc ls : String) (hasSub : Bool) : List String :=
  [lc] ++ (if hasSub then [ls] else []) ++ applyRules ln adobeNameRules

/-! ## Records and synthesizers -/

/-- The record pushed into `manifest` by every generator.  `dateAdded`
models `new Date().toISOString()` via an external clock indexed by the
record's id. -/
structure AudioRecord where
  id : Nat
  path : String
  name : String
  category : String
  format : String
  size : Nat
  duration : Nat
  rating : Nat
  tags : List String
  description : String
  library : String
  dateAdded : String
deriving DecidableEq

/-- Record synthesis of generateBoomLibraryManifest.js (lines 27-156). -/
def mkBoomRecord (clock : Nat → String) (i : Nat) (h : FileHit) : AudioRecord :=
  let stem := stemOf h.fname
  let nm := jsName stem
  { id := i,
    path := joinPath ("audio" :: "BoomLibrary" :: h.relPath),
    name := nm,
    category := h.category,
    format := extLowerOf h.fname,
    size := h.size,
    duration := 0,
    rating := 0,
    tags := dedupFirst []
      (boomTags (jsToLower stem) (jsToLower h.category) (jsToLower h.subcat) (h.subcat != "")),
    description := nm ++ " from Boom Library " ++ h.category ++ " collection.",
    library := "BoomLibrary",
    dateAdded := clock i }

/-- Record synthesis of generateKenneyManifest.js (lines 19-155): the
`name` and `description` fields use `displayName`, which appends the
parenthesized subcategory when one is present. -/
def mkKenneyRecord (clock : Nat → String) (i : Nat) (h : FileHit) : AudioRecord :=
  let stem := stemOf h.fname
  let nm := jsName stem
  let displayName := if h.subcat != "" then nm ++ " (" ++ h.subcat ++ ")" else nm
  { id := i,
    path := joinPath ("audio" :: "Kenney" :: h.relPath),
    name := displayName,
    category := h.category,
    format := extLowerOf h.fname,
    size := h.size,
    duration := 0,
    rating := 0,
    tags := dedupFirst [] (kenneyTags (jsToLower stem) (jsToLower h.category) (jsToLower h.subcat)),
    description := displayName ++ " from Kenney " ++ h.category ++ " collection.",
    library := "Kenney",
    dateAdded := clock i }

/-- Record synthesis of the Other generator script. -/
def mkOtherRecord (clock : Nat → String) (i : Nat) (h : FileHit) : AudioRecord :=
  let stem := stemOf h.fname
  let nm := jsName stem
  { id := i,
    path := joinPath ("audio" :: "Other" :: h.relPath),
    name := nm,
    category := h.category,
    format := extLowerOf h.fname,
    size := h.size,
    duration := 0,
    rating := 0,
    tags := dedupFirst []
      (otherTags (jsToLower stem) (jsToLower h.category) (jsToLower h.subcat) (h.subcat != "")),
    description := nm ++ " from Other " ++ h.category ++ " collection.",
    library := "Other",
    dateAdded := clock i }

/-- Record synthesis of the FilmCow generator script. -/
def mkFilmCowRecord (clock : Nat → String) (i : Nat) (h : FileHit) : AudioRecord :=
  let stem := stemOf h.fname
  let nm := jsName stem
  { id := i,
    path := joinPath ("audio" :: "FilmCow" :: h.relPath),
    name := nm,
    category := h.category,
    format := extLowerOf h.fname,
    size := h.size,
    duration := 0,
    rating := 0,
    tags := dedupFirst [] (filmCowTags (jsToLower stem) (jsToLower h.category)),
    description := nm ++ " from FilmCow " ++ h.category ++ " collection.",
    library := "FilmCow",
    dateAdded := clock i }

/-- Record synthesis of the H360s generator script. -/
def mkH360Record (clock : Nat → String) (i : Nat) (h : FileHit) : AudioRecord :=
  let stem := stemOf h.fname
  let nm := jsName stem
  { id := i,
    path := joinPath ("audio" :: "H360s" :: h.relPath),
    name := nm,
    category := h.category,
    format := extLowerOf h.fname,
    size := h.size,
    duration := 0,
    rating := 0,
    tags := dedupFirst []
      (h360Tags (jsToLower stem) (jsToLower h.category) (jsToLower h.subcat) (h.subcat != "")),
    description := nm ++ " from H360s " ++ h.category ++ " collection.",
    library := "H360s",
    dateAdded := clock i }

/-- Record synthesis of generateXDSoundKitManifest.js. -/
def mkXdRecord (clock : Nat → String) (i : Nat) (h : FileHit) : AudioRecord :=
  let stem := stemOf h.fname
  let nm := jsName stem
  { id := i,
    path := joinPath ("audio" :: "XDSoundKit" :: h.relPath),
    name := nm,
    category := h.category,
    format := extLowerOf h.fname,
    size := h.size,
    duration := 0,
    rating := 0,
    tags := dedupFirst []
      (xdTags (jsToLower stem) (jsToLower h.category) (jsToLower h.subcat) (h.subcat != "")),
    description := nm ++ " from XDSoundKit " ++ h.category ++ " collection.",
    library := "XDSoundKit",
    dateAdded := clock i }

/-- Record synthesis of generateAmigaMusicManifest.js (first script). -/
def mkAmigaRecord (clock : Nat → String) (i : Nat) (h : FileHit) : AudioRecord :=
  let stem := stemOf h.fname
  let nm := jsName stem
  { id := i,
    path := joinPath ("audio" :: "Amiga Music" :: h.relPath),
    name := nm,
    category := h.category,
    format := extLowerOf h.fname,
    size := h.size,
    duration := 0,
    rating := 0,
    tags := dedupFirst []
      (amigaTags (jsToLower stem) (jsToLower h.category) (jsToLower h.subcat) (h.subcat != "")),
    description := nm ++ " from Amiga Music " ++ h.category ++ " collection.",
    library := "Amiga Music",
    dateAdded := clock i }

/-- Record synthesis of the Adobe generator script. -/
def mkAdobeRecord (clock : Nat → String) (i : Nat) (h : FileHit) : AudioRecord :=
  let stem := stemOf h.fname
  let nm := jsName stem
  { id := i,
    path := joinPath ("audio" :: "Adobe" :: h.relPath),
    name := nm,
    category := h.category,
    format := extLowerOf h.fname,
    size := h.size,
    duration := 0,
    rating := 0,
    tags := dedupFirst []
      (adobeTags (jsToLower stem) (jsToLower h.category) (jsToLower h.subcat) (h.subcat != "")),
    description := nm ++ " from Adobe " ++ h.category ++ " collection.",
    library := "Adobe",
    dateAdded := clock i }

/-! ## Assembler and per-library runs -/

/-- The manifest assembler: one record per walker hit, ids assigned
sequentially from 1 in emission order (the scripts' global `let id = 1`
and `id: id++`). -/
def assemble (mk : Nat → FileHit → AudioRecord) (hits : List FileHit) :
    List AudioRecord :=
  (List.enumFrom 1 hits).map (fun p => mk p.1 p.2)

/-- Category transform of generateKenneyManifest.js (lines 168-175):
strip the first `kenney\x5f`, hyphens to spaces, title-case, and override
to `Voices` for voiceover packs. -/
def kenneyCategoryOf (subdir : String) : String :=
  if strContains (jsToLower subdir) "voiceover" then "Voices"
  else jsTitle (hyphensToSpaces (replaceFirst subdir "kenney_" ""))

/-- Category transform of the FilmCow generator: strip the first
`FilmCow ` and title-case. -/
def filmCowCategoryOf (subdir : String) : String :=
  jsTitle (replaceFirst subdir "FilmCow " "")

/-- Category transform of the Adobe generator: underscores to spaces,
title-case, then strip a leading `Adobe Sound Effects ` if present. -/
def adobeCategoryOf (subdir : String) : String :=
  let c := jsTitle (underscoresToSpaces subdir)
  if strContains c "Adobe Sound Effects" then replaceFirst c "Adobe Sound Effects " ""
  else c

/-- Sequential scan of category folders with fail-fast propagation of
filesystem errors, concatenating the hits (the scripts' `forEach` with an
uncaught exception aborting the process). -/
def scanCats {α : Type} (f : α → Except String (List FileHit)) :
    List α → Except String (List FileHit)
  | [] => .ok []
  | a :: as =>
      match f a with
      | .error e => .error e
      | .ok h =>
          match scanCats f as with
          | .error e => .error e
          | .ok rest => .ok (h ++ rest)

/-- BoomLibrary walk over all subdirectories of the root; the category is
the subdirectory's own name.  A missing root makes the top-level
`readdirSync(boomBase)` (line 161) throw. -/
def boomHitsE : Option EntryList → Except String (List FileHit)
  | none => .error "ENOENT: no such directory"
  | some es =>
      .ok ((subdirsOf es).flatMap (fun d => walkList subcatChild d.1 "" [d.1] d.2))

/-- generateBoomLibraryManifest.js as a whole run. -/
def runBoom (root : Option EntryList) (clock : Nat → String) :
    Except String (List AudioRecord) :=
  (boomHitsE root).map (assemble (mkBoomRecord clock))

/-- Other generator walk (same driver shape as BoomLibrary). -/
def otherHitsE : Option EntryList → Except String (List FileHit)
  | none => .error "ENOENT: no such directory"
  | some es =>
      .ok ((subdirsOf es).flatMap (fun d => walkList subcatChild d.1 "" [d.1] d.2))

/-- The Other generator script as a whole run. -/
def runOther (root : Option EntryList) (clock : Nat → String) :
    Except String (List AudioRecord) :=
  (otherHitsE root).map (assemble (mkOtherRecord clock))

/-- XDSoundKit walk (same driver shape as BoomLibrary). -/
def xdHitsE : Option EntryList → Except String (List FileHit)
  | none => .error "ENOENT: no such directory"
  | some es =>
      .ok ((subdirsOf es).flatMap (fun d => walkList subcatChild d.1 "" [d.1] d.2))

/-- generateXDSoundKitManifest.js as a whole run. -/
def runXd (root : Option EntryList) (clock : Nat → String) :
    Except String (List AudioRecord) :=
  (xdHitsE root).map (assemble (mkXdRecord clock))

/-- Amiga Music walk (same driver shape as BoomLibrary). -/
def amigaHitsE : Option EntryList → Except String (List FileHit)
  | none => .error "ENOENT: no such directory"
  | some es =>
      .ok ((subdirsOf es).flatMap (fun d => walkList subcatChild d.1 "" [d.1] d.2))

/-- generateAmigaMusicManifest.js (first script) as a whole run. -/
def runAmiga (root : Option EntryList) (clock : Nat → String) :
    Except String (List AudioRecord) :=
  (amigaHitsE root).map (assemble (mkAmigaRecord clock))

/-- Adobe walk: transformed category name, BoomLibrary-style recursion. -/
def adobeHitsE : Option EntryList → Except String (List FileHit)
  | none => .error "ENOENT: no such directory"
  | some es =>
      .ok ((subdirsOf es).flatMap
        (fun d => walkList subcatChild (adobeCategoryOf d.1) "" [d.1] d.2))

/-- The Adobe generator script as a whole run. -/
def runAdobe (root : Option EntryList) (clock : Nat → String) :
    Except String (List AudioRecord) :=
  (adobeHitsE root).map (assemble (mkAdobeRecord clock))

/-- FilmCow walk: transformed category name, recursion without any
subcategory parameter. -/
def filmCowHitsE : Option EntryList → Except String (List FileHit)
  | none => .error "ENOENT: no such directory"
  | some es =>
      .ok ((subdirsOf es).flatMap
        (fun d => walkList subcatKeep (filmCowCategoryOf d.1) "" [d.1] d.2))

/-- The FilmCow generator script as a whole run. -/
def runFilmCow (root : Option EntryList) (clock : Nat → String) :
    Except String (List AudioRecord) :=
  (filmCowHitsE root).map (assemble (mkFilmCowRecord clock))

/-- Kenney scan of one named child folder (`Audio`, `Male` or `Female`)
of a pack directory: absent child folders are skipped; a plain file with
that name passes `existsSync` and then makes `readdirSync` throw. -/
def kenneyScanChild (ch : EntryList) (parent sub cat subcat : String) :
    Except String (List FileHit) :=
  match findEntry ch sub with
  | none => .ok []
  | some (.file _ _) => .error "ENOTDIR: not a directory"
  | some (.dir _ _ inner) => .ok (walkFlat cat subcat [parent, sub] inner)

/-- Kenney scan of one pack directory: `Audio` with no subcategory, then
`Male` and `Female` with fixed subcategories (lines 177-195). -/
def kenneySubdirHits (d : String) (ch : EntryList) : Except String (List FileHit) :=
  match kenneyScanChild ch d "Audio" (kenneyCategoryOf d) "" with
  | .error e => .error e
  | .ok a =>
      match kenneyScanChild ch d "Male" (kenneyCategoryOf d) "Male" with
      | .error e => .error e
      | .ok m =>
          match kenneyScanChild ch d "Female" (kenneyCategoryOf d) "Female" with
          | .error e => .error e
          | .ok f => .ok (a ++ m ++ f)

/-- Kenney walk over all pack subdirectories of the root. -/
def kenneyHitsE : Option EntryList → Except String (List FileHit)
  | none => .error "ENOENT: no such directory"
  | some es => scanCats (fun d => kenneySubdirHits d.1 d.2) (subdirsOf es)

/-- generateKenneyManifest.js as a whole run. -/
def runKenney (root : Option EntryList) (clock : Nat → String) :
    Except String (List AudioRecord) :=
  (kenneyHitsE root).map (assemble (mkKenneyRecord clock))

/-- The fixed top-level category list of the H360s generator
(src/unnamed/part_001, line 160). -/
def h360Categories : List String := ["Ambience", "Combat", "Foley", "Misc", "Voices"]

/-- H360s scan of one fixed category name: missing folders are skipped by
the `existsSync` guard; a plain file with a category's name passes the
guard and makes `readdirSync` throw. -/
def h360CatHits (es : EntryList) (c : String) : Except String (List FileHit) :=
  match findEntry es c with
  | none => .ok []
  | some (.file _ _) => .error "ENOTDIR: not a directory"
  | some (.dir _ _ ch) => .ok (walkList subcatSticky c "" [c] ch)

/-- H360s walk over its fixed category list.  A missing root is an error:
every category is silently skipped, but the final
`writeFileSync(h360sBase/manifest.json)` throws because the parent
directory does not exist. -/
def h360HitsE : Option EntryList → Except String (List FileHit)
  | none => .error "ENOENT: no such directory"
  | some es => scanCats (h360CatHits es) h360Categories

/-- The H360s generator script as a whole run. -/
def runH360s (root : Option EntryList) (clock : Nat → String) :
    Except String (List AudioRecord) :=
  (h360HitsE root).map (assemble (mkH360Record clock))

/-! ## Helper lemmas -/

/-- Elements of `dedupFirst seen l` are exactly the elements of `l` not in
`seen`. -/
theorem mem_dedupFirst : ∀ (l seen : List String) (x : String),
    x ∈ dedupFirst seen l ↔ (x ∈ l ∧ x ∉ seen) := by
  intro l
  induction l with
  | nil => intro seen x; simp [dedupFirst]
  | cons t ts ih =>
      intro seen x
      by_cases ht : t ∈ seen
      · simp only [dedupFirst, if_pos ht, ih, List.mem_cons]
        constructor
        · rintro ⟨hx, hs⟩; exact ⟨Or.inr hx, hs⟩
        · rintro ⟨hx | hx, hs⟩
          · exact absurd (hx ▸ ht) hs
          · exact ⟨hx, hs⟩
      · simp only [dedupFirst, if_neg ht, List.mem_cons, ih (t :: seen)]
        constructor
        · rintro (hx | ⟨hx, hs⟩)
          · refine ⟨Or.inl hx, ?_⟩; intro hc; exact ht (hx ▸ hc)
          · refine ⟨Or.inr hx, fun hc => hs (Or.inr hc)⟩
        · rintro ⟨hx | hx, hs⟩
          · exact Or.inl hx
          · by_cases hxt : x = t
            · exact Or.inl hxt
            · exact Or.inr ⟨hx, fun hc => hc.elim hxt hs⟩

/-- `dedupFirst` produces no duplicates. -/
theorem dedupFirst_nodup : ∀ (l seen : List String), (dedupFirst seen l).Nodup := by
  intro l
  induction l with
  | nil => intro seen; simp [dedupFirst]
  | cons t ts ih =>
      intro seen
      by_cases ht : t ∈ seen
      · simpa [dedupFirst, if_pos ht] using ih seen
      · simp only [dedupFirst, if_neg ht, List.nodup_cons]
        refine ⟨fun hc => ?_, ih (t :: seen)⟩
        exact ((mem_dedupFirst ts (t :: seen) t).mp hc).2 (List.mem_cons_self t seen)

/-- `dedupFirst` keeps elements in their original relative order. -/
theorem dedupFirst_sublist : ∀ (l seen : List String), List.Sublist (dedupFirst seen l) l := by
  intro l
  induction l with
  | nil => intro seen; simp [dedupFirst]
  | cons t ts ih =>
      intro seen
      by_cases ht : t ∈ seen
      · simpa [dedupFirst, if_pos ht] using (ih seen).cons t
      · simpa [dedupFirst, if_neg ht] using (ih (t :: seen)).cons₂ t

/-- Modelled from the spec: "deduplicate the list preserving
first-occurrence order (set-with-insertion-order semantics)" — a left
fold that appends each element the first time it is seen. -/
def specInsertionDedup (l : List String) : List String :=
  l.foldl (fun acc x => if x ∈ acc then acc else acc ++ [x]) []

/-- Bridge between the accumulator form and the fold form of
first-occurrence deduplication. -/
theorem foldl_dedup_bridge :
    ∀ (l acc seen : List String), (∀ x, x ∈ seen ↔ x ∈ acc) →
      l.foldl (fun acc x => if x ∈ acc then acc else acc ++ [x]) acc =
        acc ++ dedupFirst seen l := by
  intro l
  induction l with
  | nil => intro acc seen _; simp [dedupFirst]
  | cons t ts ih =>
      intro acc seen hiff
      by_cases ht : t ∈ acc
      · have hts : t ∈ seen := (hiff t).mpr ht
        simp only [List.foldl_cons, if_pos ht, dedupFirst, if_pos hts]
        exact ih acc seen hiff
      · have hts : t ∉ seen := fun hc => ht ((hiff t).mp hc)
        simp only [List.foldl_cons, if_neg ht, dedupFirst, if_neg hts]
        rw [ih (acc ++ [t]) (t :: seen)
          (by intro x; simp [List.mem_cons, hiff x, or_comm])]
        simp

/-- The JS `[...new Set(tags)]` model agrees with the spec's
insertion-order deduplication. -/
theorem dedupFirst_eq_specInsertionDedup (l : List String) :
    dedupFirst [] l = specInsertionDedup l := by
  have := foldl_dedup_bridge l [] [] (by simp)
  simpa [specInsertionDedup] using this.symm

/-- Length of an assembled manifest. -/
theorem assemble_length (mk : Nat → FileHit → AudioRecord) (hits : List FileHit) :
    (assemble mk hits).length = hits.length := by
  simp [assemble]

/-- Every assembled record comes from some hit. -/
theorem mem_assemble {mk : Nat → FileHit → AudioRecord} {hits : List FileHit}
    {r : AudioRecord} (hr : r ∈ assemble mk hits) :
    ∃ i h, h ∈ hits ∧ r = mk i h := by
  obtain ⟨p, hp, hmk⟩ := List.mem_map.mp hr
  refine ⟨p.1, p.2, ?_, hmk.symm⟩
  have : ∀ (l : List FileHit) (n : Nat) (q : Nat × FileHit),
      q ∈ List.enumFrom n l → q.2 ∈ l := by
    intro l
    induction l with
    | nil => intro n q hq; simp [List.enumFrom] at hq
    | cons a as ih =>
        intro n q hq
        rcases List.mem_cons.mp hq with h | h
        · subst h; exact List.mem_cons_self _ _
        · exact List.mem_cons_of_mem _ (ih (n + 1) q h)
  exact this hits 1 p hp

/-- Every hit is assembled into some record. -/
theorem assemble_of_mem {hits : List FileHit} {h : FileHit}
    (mk : Nat → FileHit → AudioRecord) (hh : h ∈ hits) :
    ∃ i, mk i h ∈ assemble mk hits := by
  suffices himp : ∀ (l : List FileHit) (n : Nat), h ∈ l →
      ∃ i, mk i h ∈ (List.enumFrom n l).map (fun p => mk p.1 p.2) by
    exact himp hits 1 hh
  intro l
  induction l with
  | nil => intro n hn; simp at hn
  | cons a as ih =>
      intro n hn
      rcases List.mem_cons.mp hn with hh' | hh'
      · exact ⟨n, by simp [List.enumFrom, hh']⟩
      · obtain ⟨i, hi⟩ := ih (n + 1) hh'
        exact ⟨i, by simp [List.enumFrom]; right; simpa using hi⟩

/-- The assembled ids are exactly `start, start+1, …` in order. -/
theorem assemble_ids (mk : Nat → FileHit → AudioRecord) (hits : List FileHit)
    (hid : ∀ i h, (mk i h).id = i) :
    (assemble mk hits).map (fun r => r.id) = List.range' 1 hits.length := by
  suffices hgen : ∀ (l : List FileHit) (n : Nat),
      ((List.enumFrom n l).map (fun p => mk p.1 p.2)).map (fun r => r.id) =
        List.range' n l.length by
    exact hgen hits 1
  intro l
  induction l with
  | nil => intro n; simp [List.enumFrom]
  | cons a as ih =>
      intro n
      simp only [List.enumFrom, List.map_cons, List.length_cons, List.range'_succ, hid]
      exact congrArg (List.cons n) (ih (n + 1))

/-- Eliminating `Except.map` applied to a generator's hit computation. -/
theorem exceptMap_eq_ok {e : Except String (List FileHit)}
    {f : List FileHit → List AudioRecord} {b : List AudioRecord}
    (hm : e.map f = .ok b) : ∃ a, e = .ok a ∧ b = f a := by
  cases e with
  | error msg => simp [Except.map] at hm
  | ok a => exact ⟨a, rfl, by simpa [Except.map] using hm.symm⟩

/-- Hits produced by a sequential category scan come from one of the
scanned categories. -/
theorem mem_scanCats {α : Type} {f : α → Except String (List FileHit)}
    {l : List α} {hits : List FileHit} (hok : scanCats f l = .ok hits) :
    ∀ h ∈ hits, ∃ a ∈ l, ∃ hl, f a = .ok hl ∧ h ∈ hl := by
  induction l generalizing hits with
  | nil =>
      intro h hh
      simp only [scanCats] at hok
      cases hok; simp at hh
  | cons a as ih =>
      intro h hh
      simp only [scanCats] at hok
      cases hfa : f a with
      | error msg => rw [hfa] at hok; exact absurd hok (by simp)
      | ok ha =>
          rw [hfa] at hok
          cases hrest : scanCats f as with
          | error msg => rw [hrest] at hok; exact absurd hok (by simp)
          | ok has =>
              rw [hrest] at hok
              rw [Except.ok.injEq] at hok
              subst hok
              rcases List.mem_append.mp hh with hcase | hcase
              · exact ⟨a, List.mem_cons_self a as, ha, hfa, hcase⟩
              · obtain ⟨b, hb, hl, hfl, hmem⟩ := ih hrest h hcase
                exact ⟨b, List.mem_cons_of_mem a hb, hl, hfl, hmem⟩

/-- Structural induction over a listing only. -/
theorem entryListInd (Q : EntryList → Prop) (hn : Q .nil)
    (hc : ∀ e es, Q es → Q (.cons e es)) : ∀ es, Q es :=
  fun es =>
    @EntryList.rec (fun _ => True) Q (fun _ _ => trivial) (fun _ _ _ _ => trivial)
      hn (fun e es _ q => hc e es q) es

/-- Shape of every hit of a recursive walk: the extension passed the
allow-list, the category is the walk's category, the relative path splits
as `rel ++ p ++ [fname]` for the directory path `p` descended below the
starting folder, and the subcategory is the left fold of the walker's
subcategory update along `p` — with all names along `p` non-empty when
the tree is well named. -/
theorem walk_shape (upd : String → String → String) (cat : String) :
    (∀ e : Entry, ∀ sc rel, ∀ h ∈ walkEntry upd cat sc rel e,
       allowExt h.fname = true ∧ h.category = cat ∧
       ∃ p n, h.relPath = rel ++ (p ++ [n]) ∧ h.fname = n ∧
         h.subcat = p.foldl upd sc ∧
         (namesOkE e = true → p.all (fun s => s != "") = true)) ∧
    (∀ es : EntryList, ∀ sc rel, ∀ h ∈ walkList upd cat sc rel es,
       allowExt h.fname = true ∧ h.category = cat ∧
       ∃ p n, h.relPath = rel ++ (p ++ [n]) ∧ h.fname = n ∧
         h.subcat = p.foldl upd sc ∧
         (namesOkL es = true → p.all (fun s => s != "") = true)) := by
  refine entryMutualInd _ _ ?_ ?_ ?_ ?_
  · intro n sz sc rel h hm
    by_cases hall : allowExt n
    · simp only [walkEntry, if_pos hall, List.mem_singleton] at hm
      subst hm
      exact ⟨hall, rfl, [], n, by simp, rfl, rfl, fun _ => rfl⟩
    · simp [walkEntry, if_neg hall] at hm
  · intro n sz ch ihch sc rel h hm
    simp only [walkEntry] at hm
    obtain ⟨hall, hcat, p', n', hrel, hf, hsub, hnames⟩ :=
      ihch (upd sc n) (rel ++ [n]) h hm
    refine ⟨hall, hcat, n :: p', n', ?_, hf, hsub, ?_⟩
    · simp [hrel, List.cons_append, List.append_assoc]
    · intro hok
      simp only [namesOkE, Bool.and_eq_true] at hok
      simp only [List.all_cons, Bool.and_eq_true]
      exact ⟨hok.1, hnames hok.2⟩
  · intro sc rel h hm
    simp [walkList] at hm
  · intro e es ihe ihes sc rel h hm
    simp only [walkList, List.mem_append] at hm
    rcases hm with hm | hm
    · obtain ⟨hall, hcat, p, n, hrel, hf, hsub, hnames⟩ := ihe sc rel h hm
      refine ⟨hall, hcat, p, n, hrel, hf, hsub, fun hok => ?_⟩
      simp only [namesOkL, Bool.and_eq_true] at hok
      exact hnames hok.1
    · obtain ⟨hall, hcat, p, n, hrel, hf, hsub, hnames⟩ := ihes sc rel h hm
      refine ⟨hall, hcat, p, n, hrel, hf, hsub, fun hok => ?_⟩
      simp only [namesOkL, Bool.and_eq_true] at hok
      exact hnames hok.2

/-- Completeness of the recursive walk: every file with an allowed
extension, at any nesting depth, is emitted, with the subcategory given
by folding the walker's subcategory update along the directory path. -/
theorem walk_complete (upd : String → String → String) (cat : String)
    {es : EntryList} {p : List String} {n : String} {sz : Nat}
    (hin : FileIn es p n sz) (hall : allowExt n = true) :
    ∀ sc rel, (⟨rel ++ (p ++ [n]), n, sz, cat, p.foldl upd sc⟩ : FileHit) ∈
      walkList upd cat sc rel es := by
  induction hin with
  | headFile m msz ms =>
      intro sc rel
      simp [walkList, walkEntry, hall]
  | headDir d dsz ch ms p' n' sz' _hch ih =>
      intro sc rel
      simp only [walkList, walkEntry, List.mem_append]
      left
      have := ih hall (upd sc d) (rel ++ [d])
      simpa [List.append_assoc] using this
  | tail e ms p' n' sz' _hin ih =>
      intro sc rel
      simp only [walkList, List.mem_append]
      exact Or.inr (ih hall sc rel)

/-- Shape of every hit of the non-recursive Kenney walk: it is an
immediate child of the scanned folder. -/
theorem walkFlat_shape (cat sc : String) (rel : List String) :
    ∀ es : EntryList, ∀ h ∈ walkFlat cat sc rel es,
      allowExt h.fname = true ∧ h.category = cat ∧ h.subcat = sc ∧
        h.relPath = rel ++ [h.fname] := by
  refine entryListInd _ ?_ ?_
  · intro h hm; simp [walkFlat] at hm
  · intro e es ih h hm
    simp only [walkFlat, List.mem_append] at hm
    rcases hm with hm | hm
    · by_cases hall : allowExt (entryName e)
      · simp only [if_pos hall, List.mem_singleton] at hm
        subst hm
        exact ⟨hall, rfl, rfl, rfl⟩
      · simp [if_neg hall] at hm
    · exact ih h hm

/-! ## Name transform, positionally -/

/-- Whether an optional preceding character is a JS word character. -/
def prevWordFlag : Option Char → Bool
  | none => false
  | some c => isWordCharJs c

/-- Positional description of the word-boundary uppercase pass: a
character is uppercased exactly when it is a word character whose
predecessor (paired via `zip`) is absent or not a word character, i.e.
when it starts a maximal run of word characters. -/
def specRunStartUpper (l : List Char) : List Char :=
  (List.zip ((none : Option Char) :: l.map some) l).map
    (fun pc => if isWordCharJs pc.2 && !prevWordFlag pc.1 then pc.2.toUpper else pc.2)

/-- The stateful JS fold agrees with the positional description, for any
initial predecessor. -/
theorem upperAtBoundary_eq_zip : ∀ (l : List Char) (p : Option Char),
    upperAtBoundary (prevWordFlag p) l =
      (List.zip (p :: l.map some) l).map
        (fun pc => if isWordCharJs pc.2 && !prevWordFlag pc.1 then pc.2.toUpper else pc.2) := by
  intro l
  induction l with
  | nil => intro p; simp [upperAtBoundary]
  | cons c t ih =>
      intro p
      simp only [List.map_cons, List.zip_cons_cons, upperAtBoundary]
      refine congrArg₂ List.cons rfl ?_
      exact ih (some c)

/-- Positional form of `jsTitle`. -/
def specTitleJs (s : String) : String := String.mk (specRunStartUpper s.toList)

/-- `jsTitle` uppercases exactly the characters that start a maximal run
of word characters. -/
theorem jsTitle_eq_specTitleJs (s : String) : jsTitle s = specTitleJs s :=
  congrArg String.mk (upperAtBoundary_eq_zip s.toList none)

/-- Modelled from the spec: "replace every underscore or hyphen character
with a space; then title-case by uppercasing the first letter of every
whitespace-delimited word while leaving the rest of each word's casing
untouched" — the flag records whether the previous character was
whitespace (true at the start). -/
def upperAfterSpace : Bool → List Char → List Char
  | _, [] => []
  | atStart, c :: t =>
      (if atStart then c.toUpper else c) :: upperAfterSpace c.isWhitespace t

/-- Modelled from the spec: the claimed name transform — underscores and
hyphens to spaces, then uppercase the first character of every
whitespace-delimited word. -/
def specClaimName (stem : String) : String :=
  String.mk (upperAfterSpace true (underscoresHyphensToSpaces stem).toList)

/-! ## Content projection (everything except id and dateAdded) -/

/-- The content fields of a record named by the idempotence property:
path, name, category, format, size, tags, description, library. -/
structure RecordContent where
  path : String
  name : String
  category : String
  format : String
  size : Nat
  tags : List String
  description : String
  library : String
deriving DecidableEq

/-- Project a record to its content fields. -/
def contentOf (r : AudioRecord) : RecordContent :=
  ⟨r.path, r.name, r.category, r.format, r.size, r.tags, r.description, r.library⟩

/-- Drop ids and timestamps from a whole run's outcome. -/
def stripRun (x : Except String (List AudioRecord)) : Except String (List RecordContent) :=
  x.map (List.map contentOf)

/-- Assembled content is unchanged when only the synthesizer's clock
differs. -/
theorem assemble_content_congr {mk mk' : Nat → FileHit → AudioRecord}
    (hcc : ∀ i h, contentOf (mk i h) = contentOf (mk' i h)) (hits : List FileHit) :
    (assemble mk hits).map contentOf = (assemble mk' hits).map contentOf := by
  simp only [assemble, List.map_map]
  exact List.map_congr_left (fun p _ => hcc p.1 p.2)

/-- Membership in a deduplicated list follows from membership in the raw
list. -/
theorem dedup_head_mem {x : String} {l : List String} (hx : x ∈ l) :
    x ∈ dedupFirst [] l :=
  (mem_dedupFirst l [] x).mpr ⟨hx, by simp⟩

/-- Every record of a successful run comes from an assembled hit. -/
theorem mem_ok_records {he : Except String (List FileHit)}
    {mk : Nat → FileHit → AudioRecord} {recs : List AudioRecord}
    (hrun : he.map (assemble mk) = .ok recs) {r : AudioRecord} (hr : r ∈ recs) :
    ∃ hits i h, he = .ok hits ∧ h ∈ hits ∧ r = mk i h := by
  obtain ⟨hits, hhe, hrecs⟩ := exceptMap_eq_ok hrun
  subst hrecs
  obtain ⟨i, h, hh, hr'⟩ := mem_assemble hr
  exact ⟨hits, i, h, hhe, hh, hr'⟩

/-- Hits of a BoomLibrary-shaped driver all passed the extension filter. -/
theorem flatMapHits_allow {es : EntryList} {upd : String → String → String}
    {catF : String × EntryList → String} {h : FileHit}
    (hm : h ∈ (subdirsOf es).flatMap
      (fun d => walkList upd (catF d) "" [d.1] d.2)) :
    allowExt h.fname = true := by
  obtain ⟨d, _hd, hmem⟩ := List.mem_flatMap.mp hm
  exact ((walk_shape upd (catF d)).2 d.2 "" [d.1] h hmem).1

/-- Shape of hits of one Kenney child-folder scan. -/
theorem kenneyScanChild_shape {ch : EntryList} {parent sub cat subcat : String}
    {hl : List FileHit} (hok : kenneyScanChild ch parent sub cat subcat = .ok hl)
    {h : FileHit} (hm : h ∈ hl) :
    allowExt h.fname = true ∧ h.category = cat ∧ h.subcat = subcat ∧
      h.relPath = [parent, sub] ++ [h.fname] := by
  unfold kenneyScanChild at hok
  cases hfe : findEntry ch sub with
  | none => rw [hfe] at hok; cases hok; simp at hm
  | some e =>
      rw [hfe] at hok
      cases e with
      | file n sz => exact absurd hok (by simp)
      | dir n sz inner =>
          rw [Except.ok.injEq] at hok
          subst hok
          exact walkFlat_shape cat subcat [parent, sub] inner h hm

/-- Shape of hits of one Kenney pack scan. -/
theorem kenneySubdirHits_shape {d : String} {ch : EntryList} {hl : List FileHit}
    (hok : kenneySubdirHits d ch = .ok hl) {h : FileHit} (hm : h ∈ hl) :
    allowExt h.fname = true ∧ h.category = kenneyCategoryOf d ∧
      ∃ sub, h.relPath = [d, sub] ++ [h.fname] := by
  unfold kenneySubdirHits at hok
  cases ha : kenneyScanChild ch d "Audio" (kenneyCategoryOf d) "" with
  | error msg => rw [ha] at hok; exact absurd hok (by simp)
  | ok la =>
      rw [ha] at hok
      cases hmale : kenneyScanChild ch d "Male" (kenneyCategoryOf d) "Male" with
      | error msg => rw [hmale] at hok; exact absurd hok (by simp)
      | ok lm =>
          rw [hmale] at hok
          cases hfem : kenneyScanChild ch d "Female" (kenneyCategoryOf d) "Female" with
          | error msg => rw [hfem] at hok; exact absurd hok (by simp)
          | ok lf =>
              rw [hfem] at hok
              rw [Except.ok.injEq] at hok
              subst hok
              rcases List.mem_append.mp hm with hm' | hm'
              · rcases List.mem_append.mp hm' with hm'' | hm''
                · obtain ⟨h1, h2, _h3, h4⟩ := kenneyScanChild_shape ha hm''
                  exact ⟨h1, h2, "Audio", h4⟩
                · obtain ⟨h1, h2, _h3, h4⟩ := kenneyScanChild_shape hmale hm''
                  exact ⟨h1, h2, "Male", h4⟩
              · obtain ⟨h1, h2, _h3, h4⟩ := kenneyScanChild_shape hfem hm'
                exact ⟨h1, h2, "Female", h4⟩

/-- Hits of a successful Kenney walk all passed the extension filter. -/
theorem kenneyHitsE_allow {root : Option EntryList} {hits : List FileHit}
    (hok : kenneyHitsE root = .ok hits) :
    ∀ h ∈ hits, allowExt h.fname = true := by
  cases root with
  | none => simp [kenneyHitsE] at hok
  | some es =>
      intro h hm
      obtain ⟨d, _hd, hl, hfl, hmem⟩ := mem_scanCats hok h hm
      exact (kenneySubdirHits_shape hfl hmem).1

/-- Shape of hits of one H360s category scan. -/
theorem h360CatHits_shape {es : EntryList} {c : String} {hl : List FileHit}
    (hok : h360CatHits es c = .ok hl) {h : FileHit} (hm : h ∈ hl) :
    allowExt h.fname = true ∧ h.category = c := by
  unfold h360CatHits at hok
  cases hfe : findEntry es c with
  | none => rw [hfe] at hok; cases hok; simp at hm
  | some e =>
      rw [hfe] at hok
      cases e with
      | file n sz => exact absurd hok (by simp)
      | dir n sz ch =>
          rw [Except.ok.injEq] at hok
          subst hok
          obtain ⟨h1, h2, _⟩ := (walk_shape subcatSticky c).2 ch "" [c] h hm
          exact ⟨h1, h2⟩

/-- Hits of a successful H360s walk all passed the extension filter. -/
theorem h360HitsE_allow {root : Option EntryList} {hits : List FileHit}
    (hok : h360HitsE root = .ok hits) :
    ∀ h ∈ hits, allowExt h.fname = true := by
  cases root with
  | none => simp [h360HitsE] at hok
  | some es =>
      intro h hm
      obtain ⟨c, _hc, hl, hfl, hmem⟩ := mem_scanCats hok h hm
      exact (h360CatHits_shape hfl hmem).1

/-- Hits of every successful generator walk passed the extension filter
(all eight generators). -/
theorem hitsE_allow :
    (∀ {root hits}, boomHitsE root = .ok hits → ∀ h ∈ hits, allowExt h.fname = true) ∧
    (∀ {root hits}, otherHitsE root = .ok hits → ∀ h ∈ hits, allowExt h.fname = true) ∧
    (∀ {root hits}, xdHitsE root = .ok hits → ∀ h ∈ hits, allowExt h.fname = true) ∧
    (∀ {root hits}, amigaHitsE root = .ok hits → ∀ h ∈ hits, allowExt h.fname = true) ∧
    (∀ {root hits}, adobeHitsE root = .ok hits → ∀ h ∈ hits, allowExt h.fname = true) ∧
    (∀ {root hits}, filmCowHitsE root = .ok hits → ∀ h ∈ hits, allowExt h.fname = true) ∧
    (∀ {root hits}, kenneyHitsE root = .ok hits → ∀ h ∈ hits, allowExt h.fname = true) ∧
    (∀ {root hits}, h360HitsE root = .ok hits → ∀ h ∈ hits, allowExt h.fname = true) := by
  refine ⟨?_, ?_, ?_, ?_, ?_, ?_, @kenneyHitsE_allow, @h360HitsE_allow⟩
  all_goals
    intro root hits hok h hm
    cases root with
    | none => simp [boomHitsE, otherHitsE, xdHitsE, amigaHitsE, adobeHitsE, filmCowHitsE] at hok
    | some es =>
        simp only [boomHitsE, otherHitsE, xdHitsE, amigaHitsE, adobeHitsE, filmCowHitsE,
          Except.ok.injEq] at hok
        subst hok
        exact flatMapHits_allow hm

/-- Decidable equality of run outcomes, for concrete evaluation. -/
instance : DecidableEq (Except String (List AudioRecord)) := fun a b =>
  match a, b with
  | .ok x, .ok y => if h : x = y then isTrue (by rw [h]) else isFalse (by simp [h])
  | .error x, .error y => if h : x = y then isTrue (by rw [h]) else isFalse (by simp [h])
  | .ok _, .error _ => isFalse (by simp)
  | .error _, .ok _ => isFalse (by simp)

/-- A filename that passed the allow-list has one of the three recognized
lowercased extensions. -/
theorem allow_mem {f : String} (h : allowExt f = true) :
    extLowerOf f ∈ (["ogg", "wav", "mp3"] : List String) := by
  simpa [allowExt] using h

/-- Folding the BoomLibrary-style subcategory update along a directory
path yields the last directory of the path (the file's immediate parent
below the scanned folder), or the start value for a direct child. -/
theorem foldl_subcatChild : ∀ (p : List String) (sc : String),
    p.foldl subcatChild sc = p.reverse.headD sc := by
  intro p
  induction p with
  | nil => intro sc; rfl
  | cons d t ih =>
      intro sc
      rw [List.foldl_cons]
      have h1 : t.foldl subcatChild (subcatChild sc d) = t.reverse.headD d := ih d
      rw [h1, List.reverse_cons]
      cases htr : t.reverse with
      | nil => rfl
      | cons x xs => rfl

/-- Folding the H360s sticky subcategory update along a directory path of
non-empty names, starting from the empty subcategory, yields the first
directory of the path. -/
theorem foldl_subcatSticky : ∀ (p : List String),
    p.all (fun s => s != "") = true → p.foldl subcatSticky "" = p.headD "" := by
  intro p hall
  cases p with
  | nil => rfl
  | cons d t =>
      simp only [List.all_cons, Bool.and_eq_true] at hall
      have hd : d ≠ "" := by simpa [bne_iff_ne] using hall.1
      have hstep : subcatSticky "" d = d := by simp [subcatSticky]
      rw [List.foldl_cons, hstep]
      have hkeep : ∀ (t : List String) (s : String), s ≠ "" → t.foldl subcatSticky s = s := by
        intro t
        induction t with
        | nil => intro s _; rfl
        | cons e r ih =>
            intro s hs
            rw [List.foldl_cons]
            have : subcatSticky s e = s := by simp [subcatSticky, hs]
            rw [this]
            exact ih s hs
      simpa [List.headD] using hkeep t d hd

/-! ## Concrete fixtures for counterexamples and witnesses -/

/-- A fixed generation timestamp. -/
def fixedClock : Nat → String := fun _ => "2026-01-01T00:00:00.000Z"

/-- A second, different timestamp. -/
def otherClock : Nat → String := fun _ => "2031-05-05T05:05:05.000Z"

/-- The Other library tree of spec scenario A:
`audio/Other/RetroGames/bomb_jack_theme.ogg`. -/
def retroTree : EntryList :=
  .cons (.dir "RetroGames" 4096 (.cons (.file "bomb_jack_theme.ogg" 51200) .nil)) .nil

/-- A Kenney pack whose `Audio` folder holds one plain audio file that
fires no tag rule. -/
def kenneyPlainTree : EntryList :=
  .cons (.dir "kenney_music" 4096
    (.cons (.dir "Audio" 4096 (.cons (.file "drone.ogg" 7) .nil)) .nil)) .nil

/-- A Kenney voiceover pack with a `Male` folder. -/
def kenneyVoiceTree : EntryList :=
  .cons (.dir "kenney_voices-voiceover" 4096
    (.cons (.dir "Male" 4096 (.cons (.file "hello.ogg" 3) .nil)) .nil)) .nil

/-- A Kenney pack whose audio file is nested one directory below the
`Audio` folder. -/
def kenneyNestedTree : EntryList :=
  .cons (.dir "kenney_music" 4096
    (.cons (.dir "Audio" 4096
      (.cons (.dir "sub" 4096 (.cons (.file "drone.ogg" 5) .nil)) .nil)) .nil)) .nil

/-- A one-file BoomLibrary tree. -/
def boomWitTree : EntryList :=
  .cons (.dir "Impacts" 4096 (.cons (.file "metal_hit.wav" 77) .nil)) .nil

/-- The hit the walker produces on `boomWitTree`. -/
def boomWitHit : FileHit :=
  ⟨["Impacts", "metal_hit.wav"], "metal_hit.wav", 77, "Impacts", ""⟩

/-- Strip-run equality depends only on record content, not on the clock. -/
theorem stripRun_congr {he : Except String (List FileHit)}
    {mk mk' : Nat → FileHit → AudioRecord}
    (hcc : ∀ i h, contentOf (mk i h) = contentOf (mk' i h)) :
    stripRun (he.map (assemble mk)) = stripRun (he.map (assemble mk')) := by
  cases he with
  | error e => rfl
  | ok hits => exact congrArg Except.ok (assemble_content_congr hcc hits)

/-! ## Claims -/

/-- C3, counterexample: on `audio/Other/RetroGames/bomb_jack_theme.ogg`
the Other generator emits exactly one record, and its tags do NOT contain
`bomb jack` (the rule's pattern `bomb jack` has a space, the stem has an
underscore), hence also none of `arcade`, `platformer`, `mark cooksey`. -/
theorem c3_counterexample :
    ((runOther (some retroTree) fixedClock).toOption.getD []).map
      (fun r => (r.tags.contains "bomb jack", r.tags.contains "arcade",
        r.tags.contains "platformer", r.tags.contains "mark cooksey")) =
      [(false, false, false, false)] := by decide

/-- C3, amended: the file `audio/Other/RetroGames/bomb_jack_theme.ogg`
under category `RetroGames` yields name `Bomb Jack Theme`, format `ogg`,
and tags exactly `[retrogames, retro, game music, soundtrack, theme,
title, menu]` — the game-specific tags `bomb jack`, `arcade`,
`platformer`, `mark cooksey` are absent because the substring patterns
contain spaces while the filename stem uses underscores. -/
theorem c3_amended :
    (runOther (some retroTree) fixedClock).toOption = some
      [⟨1, "audio/Other/RetroGames/bomb_jack_theme.ogg", "Bomb Jack Theme", "RetroGames",
        "ogg", 51200, 0, 0,
        ["retrogames", "retro", "game music", "soundtrack", "theme", "title", "menu"],
        "Bomb Jack Theme from Other RetroGames collection.", "Other",
        "2026-01-01T00:00:00.000Z"⟩] := by decide

/-- C8, counterexample: a nonexistent library root is an error, not an
empty manifest — the BoomLibrary generator's top-level `readdirSync`
throws, and the H360s generator's final `writeFileSync` throws. -/
theorem c8_counterexample :
    (runBoom none fixedClock).toOption = none ∧
    (runH360s none fixedClock).toOption = none := by
  exact ⟨rfl, rfl⟩

/-- C8, amended: an EMPTY library root is not an error — every generator
scans zero files and writes a manifest whose content is the empty array —
but a NONEXISTENT root aborts the run with an uncaught filesystem error
and writes no manifest. -/
theorem c8_amended :
    (∀ clock, runBoom (some .nil) clock = .ok []) ∧
    (∀ clock, runOther (some .nil) clock = .ok []) ∧
    (∀ clock, runXd (some .nil) clock = .ok []) ∧
    (∀ clock, runAmiga (some .nil) clock = .ok []) ∧
    (∀ clock, runAdobe (some .nil) clock = .ok []) ∧
    (∀ clock, runFilmCow (some .nil) clock = .ok []) ∧
    (∀ clock, runKenney (some .nil) clock = .ok []) ∧
    (∀ clock, runH360s (some .nil) clock = .ok []) ∧
    (∀ clock, ∃ e, runBoom none clock = .error e) ∧
    (∀ clock, ∃ e, runOther none clock = .error e) ∧
    (∀ clock, ∃ e, runXd none clock = .error e) ∧
    (∀ clock, ∃ e, runAmiga none clock = .error e) ∧
    (∀ clock, ∃ e, runAdobe none clock = .error e) ∧
    (∀ clock, ∃ e, runFilmCow none clock = .error e) ∧
    (∀ clock, ∃ e, runKenney none clock = .error e) ∧
    (∀ clock, ∃ e, runH360s none clock = .error e) := by
  refine ⟨fun _ => rfl, fun _ => rfl, fun _ => rfl, fun _ => rfl, fun _ => rfl,
    fun _ => rfl, fun _ => rfl, fun _ => rfl, ?_, ?_, ?_, ?_, ?_, ?_, ?_, ?_⟩
  all_goals exact fun _ => ⟨"ENOENT: no such directory", rfl⟩

/-- C9: for any fixed directory tree, two runs of the same generator with
different clocks produce identical record sequences once ids and
timestamps are stripped — for all eight generators (here even the ids
agree; the claim only required content agreement). -/
theorem c9_content_idempotent :
    (∀ root c c', stripRun (runBoom root c) = stripRun (runBoom root c')) ∧
    (∀ root c c', stripRun (runOther root c) = stripRun (runOther root c')) ∧
    (∀ root c c', stripRun (runXd root c) = stripRun (runXd root c')) ∧
    (∀ root c c', stripRun (runAmiga root c) = stripRun (runAmiga root c')) ∧
    (∀ root c c', stripRun (runAdobe root c) = stripRun (runAdobe root c')) ∧
    (∀ root c c', stripRun (runFilmCow root c) = stripRun (runFilmCow root c')) ∧
    (∀ root c c', stripRun (runKenney root c) = stripRun (runKenney root c')) ∧
    (∀ root c c', stripRun (runH360s root c) = stripRun (runH360s root c')) := by
  refine ⟨?_, ?_, ?_, ?_, ?_, ?_, ?_, ?_⟩
  all_goals exact fun root c c' => stripRun_congr (fun i h => rfl)

/-- C2, counterexample: the Kenney generator's `name` is not the plain
stem transform — for a `Male` voiceover file `hello.ogg` the emitted name
is `Hello (Male)`, while the claimed transform of the stem gives `Hello`. -/
theorem c2_counterexample :
    ((runKenney (some kenneyVoiceTree) fixedClock).toOption.getD []).map
      (fun r => r.name) = ["Hello (Male)"] ∧
    specClaimName "hello" = "Hello" ∧
    ("Hello (Male)" : String) ≠ "Hello" := by
  exact ⟨by decide, by decide, by decide⟩

/-- C2, amended: the name transform replaces underscores and hyphens with
spaces and then uppercases every character that STARTS A MAXIMAL RUN of
word characters (JS word-boundary semantics, so a letter after any
non-word character is also uppercased — equivalent to whitespace-word
title-casing on stems without other separators); seven generators emit
exactly this transform of the stem, while the Kenney generator appends a
parenthesized subcategory when one is present. -/
theorem c2_amended :
    (∀ s, jsTitle s = specTitleJs s) ∧
    (∀ clock i h, (mkBoomRecord clock i h).name =
      specTitleJs (underscoresHyphensToSpaces (stemOf h.fname))) ∧
    (∀ clock i h, (mkOtherRecord clock i h).name =
      specTitleJs (underscoresHyphensToSpaces (stemOf h.fname))) ∧
    (∀ clock i h, (mkXdRecord clock i h).name =
      specTitleJs (underscoresHyphensToSpaces (stemOf h.fname))) ∧
    (∀ clock i h, (mkAmigaRecord clock i h).name =
      specTitleJs (underscoresHyphensToSpaces (stemOf h.fname))) ∧
    (∀ clock i h, (mkAdobeRecord clock i h).name =
      specTitleJs (underscoresHyphensToSpaces (stemOf h.fname))) ∧
    (∀ clock i h, (mkFilmCowRecord clock i h).name =
      specTitleJs (underscoresHyphensToSpaces (stemOf h.fname))) ∧
    (∀ clock i h, (mkH360Record clock i h).name =
      specTitleJs (underscoresHyphensToSpaces (stemOf h.fname))) ∧
    (∀ clock i h, (mkKenneyRecord clock i h).name =
      (if h.subcat != "" then
        specTitleJs (underscoresHyphensToSpaces (stemOf h.fname)) ++ " (" ++ h.subcat ++ ")"
      else specTitleJs (underscoresHyphensToSpaces (stemOf h.fname)))) := by
  refine ⟨jsTitle_eq_specTitleJs, ?_, ?_, ?_, ?_, ?_, ?_, ?_, ?_⟩
  all_goals intro clock i h
  · simp only [mkBoomRecord, jsName, jsTitle_eq_specTitleJs]
  · simp only [mkOtherRecord, jsName, jsTitle_eq_specTitleJs]
  · simp only [mkXdRecord, jsName, jsTitle_eq_specTitleJs]
  · simp only [mkAmigaRecord, jsName, jsTitle_eq_specTitleJs]
  · simp only [mkAdobeRecord, jsName, jsTitle_eq_specTitleJs]
  · simp only [mkFilmCowRecord, jsName, jsTitle_eq_specTitleJs]
  · simp only [mkH360Record, jsName, jsTitle_eq_specTitleJs]
  · simp only [mkKenneyRecord, jsName, jsTitle_eq_specTitleJs]

/-- C1, counterexample: the Kenney generator does NOT unconditionally tag
records with the lowercased category — a file `drone.ogg` under the
`Music` pack yields exactly one record, whose tags (here empty) do not
contain `music`. -/
theorem c1_counterexample :
    ((runKenney (some kenneyPlainTree) fixedClock).toOption.getD []).map
      (fun r => (r.category, r.tags.contains (jsToLower r.category), r.tags)) =
      [("Music", false, [])] := by decide

/-- C1, amended: the BoomLibrary, Other, XDSoundKit, Amiga, Adobe and
H360s generators unconditionally tag every record with the lowercased
category name and, when a non-empty subcategory accompanies the tuple,
the lowercased subcategory name; the Kenney and FilmCow generators add
category- or subcategory-derived tags only through conditional rules. -/
theorem c1_amended :
    (∀ root clock recs, runBoom root clock = .ok recs →
      ∀ r ∈ recs, jsToLower r.category ∈ r.tags) ∧
    (∀ root clock recs, runOther root clock = .ok recs →
      ∀ r ∈ recs, jsToLower r.category ∈ r.tags) ∧
    (∀ root clock recs, runXd root clock = .ok recs →
      ∀ r ∈ recs, jsToLower r.category ∈ r.tags) ∧
    (∀ root clock recs, runAmiga root clock = .ok recs →
      ∀ r ∈ recs, jsToLower r.category ∈ r.tags) ∧
    (∀ root clock recs, runAdobe root clock = .ok recs →
      ∀ r ∈ recs, jsToLower r.category ∈ r.tags) ∧
    (∀ root clock recs, runH360s root clock = .ok recs →
      ∀ r ∈ recs, jsToLower r.category ∈ r.tags) ∧
    (∀ clock i h, h.subcat ≠ "" →
      jsToLower h.subcat ∈ (mkBoomRecord clock i h).tags) ∧
    (∀ clock i h, h.subcat ≠ "" →
      jsToLower h.subcat ∈ (mkOtherRecord clock i h).tags) ∧
    (∀ clock i h, h.subcat ≠ "" →
      jsToLower h.subcat ∈ (mkXdRecord clock i h).tags) ∧
    (∀ clock i h, h.subcat ≠ "" →
      jsToLower h.subcat ∈ (mkAmigaRecord clock i h).tags) ∧
    (∀ clock i h, h.subcat ≠ "" →
      jsToLower h.subcat ∈ (mkAdobeRecord clock i h).tags) ∧
    (∀ clock i h, h.subcat ≠ "" →
      jsToLower h.subcat ∈ (mkH360Record clock i h).tags) := by
  refine ⟨?_, ?_, ?_, ?_, ?_, ?_, ?_, ?_, ?_, ?_, ?_, ?_⟩
  · intro root clock recs hrun r hr
    obtain ⟨hits, i, h, hhe, hh, hr'⟩ := mem_ok_records hrun hr
    subst hr'
    exact dedup_head_mem (by simp [mkBoomRecord, boomTags])
  · intro root clock recs hrun r hr
    obtain ⟨hits, i, h, hhe, hh, hr'⟩ := mem_ok_records hrun hr
    subst hr'
    exact dedup_head_mem (by simp [mkOtherRecord, otherTags])
  · intro root clock recs hrun r hr
    obtain ⟨hits, i, h, hhe, hh, hr'⟩ := mem_ok_records hrun hr
    subst hr'
    exact dedup_head_mem (by simp [mkXdRecord, xdTags])
  · intro root clock recs hrun r hr
    obtain ⟨hits, i, h, hhe, hh, hr'⟩ := mem_ok_records hrun hr
    subst hr'
    exact dedup_head_mem (by simp [mkAmigaRecord, amigaTags])
  · intro root clock recs hrun r hr
    obtain ⟨hits, i, h, hhe, hh, hr'⟩ := mem_ok_records hrun hr
    subst hr'
    exact dedup_head_mem (by simp [mkAdobeRecord, adobeTags])
  · intro root clock recs hrun r hr
    obtain ⟨hits, i, h, hhe, hh, hr'⟩ := mem_ok_records hrun hr
    subst hr'
    exact dedup_head_mem (by simp [mkH360Record, h360Tags])
  · intro clock i h hs
    exact dedup_head_mem (by simp [mkBoomRecord, boomTags, bne_iff_ne, hs])
  · intro clock i h hs
    exact dedup_head_mem (by simp [mkOtherRecord, otherTags, bne_iff_ne, hs])
  · intro clock i h hs
    exact dedup_head_mem (by simp [mkXdRecord, xdTags, bne_iff_ne, hs])
  · intro clock i h hs
    exact dedup_head_mem (by simp [mkAmigaRecord, amigaTags, bne_iff_ne, hs])
  · intro clock i h hs
    exact dedup_head_mem (by simp [mkAdobeRecord, adobeTags, bne_iff_ne, hs])
  · intro clock i h hs
    exact dedup_head_mem (by simp [mkH360Record, h360Tags, bne_iff_ne, hs])

/-- C1, witness: the amended claim instantiated on a concrete BoomLibrary
run and on a concrete subcategorized hit. -/
theorem c1_amended_witness :
    jsToLower (mkBoomRecord fixedClock 1 boomWitHit).category ∈
      (mkBoomRecord fixedClock 1 boomWitHit).tags ∧
    jsToLower "Deep" ∈
      (mkBoomRecord fixedClock 2
        ⟨["Impacts", "Deep", "x.ogg"], "x.ogg", 5, "Impacts", "Deep"⟩).tags := by
  constructor
  · have hrun : runBoom (some boomWitTree) fixedClock =
        .ok [mkBoomRecord fixedClock 1 boomWitHit] := by decide
    exact c1_amended.1 (some boomWitTree) fixedClock _ hrun _ (List.mem_singleton_self _)
  · exact c1_amended.2.2.2.2.2.2.1 fixedClock 2
      ⟨["Impacts", "Deep", "x.ogg"], "x.ogg", 5, "Impacts", "Deep"⟩ (by decide)

/-- C5: every record of every successful run of any of the eight
generators has a format among `ogg`, `wav`, `mp3` (the lowercased
extension), and the filtering happens during the walk: every hit of any
walker already passed the allow-list, so no record is ever constructed
for a file with another extension. -/
theorem c5_formats :
    (∀ root clock recs, runBoom root clock = .ok recs →
      ∀ r ∈ recs, r.format ∈ (["ogg", "wav", "mp3"] : List String)) ∧
    (∀ root clock recs, runOther root clock = .ok recs →
      ∀ r ∈ recs, r.format ∈ (["ogg", "wav", "mp3"] : List String)) ∧
    (∀ root clock recs, runXd root clock = .ok recs →
      ∀ r ∈ recs, r.format ∈ (["ogg", "wav", "mp3"] : List String)) ∧
    (∀ root clock recs, runAmiga root clock = .ok recs →
      ∀ r ∈ recs, r.format ∈ (["ogg", "wav", "mp3"] : List String)) ∧
    (∀ root clock recs, runAdobe root clock = .ok recs →
      ∀ r ∈ recs, r.format ∈ (["ogg", "wav", "mp3"] : List String)) ∧
    (∀ root clock recs, runFilmCow root clock = .ok recs →
      ∀ r ∈ recs, r.format ∈ (["ogg", "wav", "mp3"] : List String)) ∧
    (∀ root clock recs, runKenney root clock = .ok recs →
      ∀ r ∈ recs, r.format ∈ (["ogg", "wav", "mp3"] : List String)) ∧
    (∀ root clock recs, runH360s root clock = .ok recs →
      ∀ r ∈ recs, r.format ∈ (["ogg", "wav", "mp3"] : List String)) ∧
    (∀ (upd : String → String → String) cat sc rel es,
      ∀ h ∈ walkList upd cat sc rel es, allowExt h.fname = true) ∧
    (∀ cat sc rel es, ∀ h ∈ walkFlat cat sc rel es, allowExt h.fname = true) := by
  refine ⟨?_, ?_, ?_, ?_, ?_, ?_, ?_, ?_,
    fun upd cat sc rel es h hm => ((walk_shape upd cat).2 es sc rel h hm).1,
    fun cat sc rel es h hm => (walkFlat_shape cat sc rel es h hm).1⟩
  · intro root clock recs hrun r hr
    obtain ⟨hits, i, h, hhe, hh, hr'⟩ := mem_ok_records hrun hr
    subst hr'
    exact allow_mem (hitsE_allow.1 hhe h hh)
  · intro root clock recs hrun r hr
    obtain ⟨hits, i, h, hhe, hh, hr'⟩ := mem_ok_records hrun hr
    subst hr'
    exact allow_mem (hitsE_allow.2.1 hhe h hh)
  · intro root clock recs hrun r hr
    obtain ⟨hits, i, h, hhe, hh, hr'⟩ := mem_ok_records hrun hr
    subst hr'
    exact allow_mem (hitsE_allow.2.2.1 hhe h hh)
  · intro root clock recs hrun r hr
    obtain ⟨hits, i, h, hhe, hh, hr'⟩ := mem_ok_records hrun hr
    subst hr'
    exact allow_mem (hitsE_allow.2.2.2.1 hhe h hh)
  · intro root clock recs hrun r hr
    obtain ⟨hits, i, h, hhe, hh, hr'⟩ := mem_ok_records hrun hr
    subst hr'
    exact allow_mem (hitsE_allow.2.2.2.2.1 hhe h hh)
  · intro root clock recs hrun r hr
    obtain ⟨hits, i, h, hhe, hh, hr'⟩ := mem_ok_records hrun hr
    subst hr'
    exact allow_mem (hitsE_allow.2.2.2.2.2.1 hhe h hh)
  · intro root clock recs hrun r hr
    obtain ⟨hits, i, h, hhe, hh, hr'⟩ := mem_ok_records hrun hr
    subst hr'
    exact allow_mem (hitsE_allow.2.2.2.2.2.2.1 hhe h hh)
  · intro root clock recs hrun r hr
    obtain ⟨hits, i, h, hhe, hh, hr'⟩ := mem_ok_records hrun hr
    subst hr'
    exact allow_mem (hitsE_allow.2.2.2.2.2.2.2 hhe h hh)

/-- C5, witness: the format property instantiated on a concrete
BoomLibrary run. -/
theorem c5_formats_witness :
    (mkBoomRecord fixedClock 1 boomWitHit).format ∈
      (["ogg", "wav", "mp3"] : List String) := by
  have hrun : runBoom (some boomWitTree) fixedClock =
      .ok [mkBoomRecord fixedClock 1 boomWitHit] := by decide
  exact c5_formats.1 (some boomWitTree) fixedClock _ hrun _ (List.mem_singleton_self _)

/-- C6: for every successful run of any of the eight generators, the id
fields are exactly the integers 1..N in emission order (no gaps, no
duplicates). -/
theorem c6_ids :
    (∀ root clock recs, runBoom root clock = .ok recs →
      recs.map (fun r => r.id) = List.range' 1 recs.length) ∧
    (∀ root clock recs, runOther root clock = .ok recs →
      recs.map (fun r => r.id) = List.range' 1 recs.length) ∧
    (∀ root clock recs, runXd root clock = .ok recs →
      recs.map (fun r => r.id) = List.range' 1 recs.length) ∧
    (∀ root clock recs, runAmiga root clock = .ok recs →
      recs.map (fun r => r.id) = List.range' 1 recs.length) ∧
    (∀ root clock recs, runAdobe root clock = .ok recs →
      recs.map (fun r => r.id) = List.range' 1 recs.length) ∧
    (∀ root clock recs, runFilmCow root clock = .ok recs →
      recs.map (fun r => r.id) = List.range' 1 recs.length) ∧
    (∀ root clock recs, runKenney root clock = .ok recs →
      recs.map (fun r => r.id) = List.range' 1 recs.length) ∧
    (∀ root clock recs, runH360s root clock = .ok recs →
      recs.map (fun r => r.id) = List.range' 1 recs.length) := by
  refine ⟨?_, ?_, ?_, ?_, ?_, ?_, ?_, ?_⟩
  all_goals
    intro root clock recs hrun
    obtain ⟨hits, hhe, hrecs⟩ := exceptMap_eq_ok hrun
    subst hrecs
    rw [assemble_length]
    exact assemble_ids _ _ (fun _ _ => rfl)

/-- C6, witness: the id property instantiated on a concrete BoomLibrary
run. -/
theorem c6_ids_witness :
    ([mkBoomRecord fixedClock 1 boomWitHit].map (fun r => r.id)) =
      List.range' 1 ([mkBoomRecord fixedClock 1 boomWitHit].length) := by
  have hrun : runBoom (some boomWitTree) fixedClock =
      .ok [mkBoomRecord fixedClock 1 boomWitHit] := by decide
  exact c6_ids.1 (some boomWitTree) fixedClock _ hrun

/-- C7: the tags of every record of every successful run are the raw
rule accumulation deduplicated with first-occurrence insertion-order
semantics: the JS `Set` model agrees with the spec's fold description,
keeps exactly the accumulated elements in their original relative order,
and every emitted record's tags are duplicate-free. -/
theorem c7_tags_dedup :
    (∀ l, dedupFirst [] l = specInsertionDedup l) ∧
    (∀ l, (dedupFirst [] l).Nodup) ∧
    (∀ l, List.Sublist (dedupFirst [] l) l) ∧
    (∀ l x, x ∈ dedupFirst [] l ↔ x ∈ l) ∧
    (∀ root clock recs, runBoom root clock = .ok recs → ∀ r ∈ recs, r.tags.Nodup) ∧
    (∀ root clock recs, runOther root clock = .ok recs → ∀ r ∈ recs, r.tags.Nodup) ∧
    (∀ root clock recs, runXd root clock = .ok recs → ∀ r ∈ recs, r.tags.Nodup) ∧
    (∀ root clock recs, runAmiga root clock = .ok recs → ∀ r ∈ recs, r.tags.Nodup) ∧
    (∀ root clock recs, runAdobe root clock = .ok recs → ∀ r ∈ recs, r.tags.Nodup) ∧
    (∀ root clock recs, runFilmCow root clock = .ok recs → ∀ r ∈ recs, r.tags.Nodup) ∧
    (∀ root clock recs, runKenney root clock = .ok recs → ∀ r ∈ recs, r.tags.Nodup) ∧
    (∀ root clock recs, runH360s root clock = .ok recs → ∀ r ∈ recs, r.tags.Nodup) := by
  refine ⟨dedupFirst_eq_specInsertionDedup, fun l => dedupFirst_nodup l [],
    fun l => dedupFirst_sublist l [], fun l x => by
      simpa using mem_dedupFirst l [] x, ?_, ?_, ?_, ?_, ?_, ?_, ?_, ?_⟩
  all_goals
    intro root clock recs hrun r hr
    obtain ⟨hits, i, h, hhe, hh, hr'⟩ := mem_ok_records hrun hr
    subst hr'
    exact dedupFirst_nodup _ _

/-- C7, witness: duplicate-freeness instantiated on a concrete
BoomLibrary run. -/
theorem c7_tags_dedup_witness :
    (mkBoomRecord fixedClock 1 boomWitHit).tags.Nodup := by
  have hrun : runBoom (some boomWitTree) fixedClock =
      .ok [mkBoomRecord fixedClock 1 boomWitHit] := by decide
  exact c7_tags_dedup.2.2.2.2.1 (some boomWitTree) fixedClock _ hrun _
    (List.mem_singleton_self _)

/-- C4, counterexample: the Kenney generator does not recurse — its
scanned `Audio` folder here contains an allowed audio file one directory
deeper (`sub/drone.ogg`), yet the run emits zero records. -/
theorem c4_counterexample :
    (runKenney (some kenneyNestedTree) fixedClock).toOption = some [] ∧
    FileIn (.cons (.dir "sub" 4096 (.cons (.file "drone.ogg" 5) .nil)) .nil)
      ["sub"] "drone.ogg" 5 ∧
    allowExt "drone.ogg" = true := by
  refine ⟨by decide, ?_, by decide⟩
  exact FileIn.headDir "sub" 4096 (.cons (.file "drone.ogg" 5) .nil) .nil [] "drone.ogg" 5
    (FileIn.headFile "drone.ogg" 5 .nil)

/-- C4, amended: the seven recursive walkers (BoomLibrary-style, FilmCow
and H360s, all instances of `walkList`) emit every allowed audio file at
ANY nesting depth, with the subcategory obtained by folding the walker's
subcategory update along the descended path, and every hit becomes an
assembled record; the Kenney walker does not recurse — each of its hits
is an immediate child of the scanned folder. -/
theorem c4_amended :
    (∀ (upd : String → String → String) (cat : String) (es : EntryList)
        (p : List String) (n : String) (sz : Nat),
      FileIn es p n sz → allowExt n = true → ∀ sc rel,
        (⟨rel ++ (p ++ [n]), n, sz, cat, p.foldl upd sc⟩ : FileHit) ∈
          walkList upd cat sc rel es) ∧
    (∀ (mk : Nat → FileHit → AudioRecord) (hits : List FileHit) (h : FileHit),
      h ∈ hits → ∃ i, mk i h ∈ assemble mk hits) ∧
    (∀ cat sc rel es, ∀ h ∈ walkFlat cat sc rel es,
      h.relPath = rel ++ [h.fname]) := by
  refine ⟨?_, ?_, ?_⟩
  · intro upd cat es p n sz hin hall sc rel
    exact walk_complete upd cat hin hall sc rel
  · intro mk hits h hh
    exact assemble_of_mem mk hh
  · intro cat sc rel es h hm
    exact (walkFlat_shape cat sc rel es h hm).2.2.2

/-- C4, witness: the recursive emission instantiated on a concrete
two-level BoomLibrary walk, and assembly membership on a singleton. -/
theorem c4_amended_witness :
    ((⟨["Impacts"] ++ (["Deep"] ++ ["boom_low.wav"]), "boom_low.wav", 9, "Impacts",
        (["Deep"] : List String).foldl subcatChild ""⟩ : FileHit) ∈
      walkList subcatChild "Impacts" "" ["Impacts"]
        (.cons (.dir "Deep" 4096 (.cons (.file "boom_low.wav" 9) .nil)) .nil)) ∧
    (∃ i, mkBoomRecord fixedClock i boomWitHit ∈
      assemble (mkBoomRecord fixedClock) [boomWitHit]) := by
  constructor
  · exact c4_amended.1 subcatChild "Impacts"
      (.cons (.dir "Deep" 4096 (.cons (.file "boom_low.wav" 9) .nil)) .nil)
      ["Deep"] "boom_low.wav" 9
      (FileIn.headDir "Deep" 4096 (.cons (.file "boom_low.wav" 9) .nil) .nil []
        "boom_low.wav" 9 (FileIn.headFile "boom_low.wav" 9 .nil))
      (by decide) "" ["Impacts"]
  · exact c4_amended.2.1 (mkBoomRecord fixedClock) [boomWitHit] boomWitHit
      (List.mem_singleton_self _)

/-- C10: in the H360s walk (sticky update, empty initial subcategory over
a well-named tree) every hit's subcategory is the FIRST directory of the
descended path — once set, deeper recursion never overrides it — while
in the BoomLibrary-style walks (child update) every hit's subcategory is
the LAST directory of the descended path, i.e. the file's immediate
parent below the scanned folder (empty for direct children in both
cases). -/
theorem c10_subcat :
    (∀ (cat : String) (rel : List String) (es : EntryList),
      namesOkL es = true → ∀ h ∈ walkList subcatSticky cat "" rel es,
        ∃ p n, h.relPath = rel ++ (p ++ [n]) ∧ h.subcat = p.headD "") ∧
    (∀ (cat : String) (rel : List String) (es : EntryList),
      ∀ h ∈ walkList subcatChild cat "" rel es,
        ∃ p n, h.relPath = rel ++ (p ++ [n]) ∧ h.subcat = p.reverse.headD "") := by
  constructor
  · intro cat rel es hok h hm
    obtain ⟨_, _, p, n, hrel, _, hsub, hnames⟩ :=
      (walk_shape subcatSticky cat).2 es "" rel h hm
    exact ⟨p, n, hrel, by rw [hsub, foldl_subcatSticky p (hnames hok)]⟩
  · intro cat rel es h hm
    obtain ⟨_, _, p, n, hrel, _, hsub, _⟩ :=
      (walk_shape subcatChild cat).2 es "" rel h hm
    exact ⟨p, n, hrel, by rw [hsub, foldl_subcatChild]⟩

/-- Sample H360s category tree with a file two directories deep. -/
def foleyTree : EntryList :=
  .cons (.dir "Footsteps" 4096
    (.cons (.dir "Wood" 4096 (.cons (.file "step1.ogg" 11) .nil)) .nil)) .nil

/-- The hit of the sticky (H360s) walk on `foleyTree`. -/
def stickyWitHit : FileHit :=
  ⟨["Foley", "Footsteps", "Wood", "step1.ogg"], "step1.ogg", 11, "Foley", "Footsteps"⟩

/-- The hit of the child-update (BoomLibrary-style) walk on `foleyTree`. -/
def childWitHit : FileHit :=
  ⟨["Foley", "Footsteps", "Wood", "step1.ogg"], "step1.ogg", 11, "Foley", "Wood"⟩

/-- C10, witness: on the same two-level tree the sticky walk records the
first-level folder `Footsteps` while the child-update walk records the
immediate parent `Wood`. -/
theorem c10_subcat_witness :
    (∃ p n, stickyWitHit.relPath = ["Foley"] ++ (p ++ [n]) ∧
      stickyWitHit.subcat = p.headD "") ∧
    (∃ p n, childWitHit.relPath = ["Foley"] ++ (p ++ [n]) ∧
      childWitHit.subcat = p.reverse.headD "") := by
  constructor
  · exact c10_subcat.1 "Foley" ["Foley"] foleyTree (by decide) stickyWitHit (by decide)
  · exact c10_subcat.2 "Foley" ["Foley"] foleyTree childWitHit (by decide)
